import Mathlib
/-!
Shallow embedding of the trust-score core of the `plugin-social-alpha`
repository: the balanced trust-score calculator, the simulation runner's
profit back-fill pass, the rug price trajectory, and the trust-score
optimizer (metrics, enhanced scoring, accuracy evaluation and grid search).
JavaScript numbers are modelled as exact rationals (`ℚ`), timestamps as
integers, `Map`s as association lists in insertion order, and the square
root used by the Sharpe ratio / RMSE / correlation computations is passed
in as an abstract function `ℚ → ℚ` (none of the verified claims depend on
its values).
-/

/-- Metrics record of a `TrustScoreResult` (part_000, interface
`TrustScoreResult.metrics`). -/
structure TrustScoreMetrics where
  totalCalls : ℚ
  profitableCalls : ℚ
  averageProfit : ℚ
  winRate : ℚ
  sharpeRatio : ℚ
  alpha : ℚ
  volumePenalty : ℚ
  consistency : ℚ
deriving DecidableEq, Repr

/-- Parameter record of the balanced calculator (part_001, interface
`BalancedTrustScoreParams`); the per-archetype tolerance table is modelled
as a lookup function already including the `|| 1.0` fallback applied at its
only read site. -/
structure BalancedTrustScoreParams where
  profitWeight : ℚ
  winRateWeight : ℚ
  sharpeWeight : ℚ
  alphaWeight : ℚ
  consistencyWeight : ℚ
  qualityWeight : ℚ
  normalVolumeThreshold : ℚ
  highVolumeThreshold : ℚ
  extremeVolumeThreshold : ℚ
  volumeToleranceByArchetype : String → ℚ

namespace BalancedTrustScoreCalculator

/-- Default (and, during scoring, never modified) parameters of
`BalancedTrustScoreCalculator` (part_001 lines 23-44). -/
def params : BalancedTrustScoreParams where
  profitWeight := 0.25
  winRateWeight := 0.25
  sharpeWeight := 0.15
  alphaWeight := 0.1
  consistencyWeight := 0.1
  qualityWeight := 0.15
  normalVolumeThreshold := 100
  highVolumeThreshold := 300
  extremeVolumeThreshold := 500
  volumeToleranceByArchetype := fun archetype =>
    if archetype = "elite_analyst" then 2.0
    else if archetype = "skilled_trader" then 1.5
    else if archetype = "technical_analyst" then 1.3
    else if archetype = "contrarian" then 1.0
    else if archetype = "newbie" then 0.8
    else if archetype = "fomo_trader" then 0.6
    else if archetype = "pump_chaser" then 0.5
    else if archetype = "bot_spammer" then 0.3
    else if archetype = "rug_promoter" then 0.3
    else 1.0

/-- Archetype base scores (part_001 `getArchetypeBase`, `bases[archetype] || 30`). -/
def getArchetypeBase (archetype : String) : ℚ :=
  if archetype = "elite_analyst" then 85
  else if archetype = "skilled_trader" then 65
  else if archetype = "technical_analyst" then 55
  else if archetype = "contrarian" then 50
  else if archetype = "newbie" then 35
  else if archetype = "fomo_trader" then 25
  else if archetype = "pump_chaser" then 20
  else if archetype = "bot_spammer" then 10
  else if archetype = "rug_promoter" then 5
  else 30

/-- Profit component (part_001 `calculateProfitComponent`). -/
def calculateProfitComponent (avgProfit : ℚ) : ℚ :=
  if avgProfit > 50 then 90 + min 10 ((avgProfit - 50) * 0.1)
  else if avgProfit > 20 then 70 + (avgProfit - 20) * 0.67
  else if avgProfit > 0 then 50 + avgProfit
  else if avgProfit > -30 then 30 + (avgProfit / 30) * 20
  else max 0 (30 + avgProfit * 0.3)

/-- Win-rate component (part_001 `calculateWinRateComponent`). -/
def calculateWinRateComponent (winRate : ℚ) : ℚ :=
  if winRate ≥ 0.8 then 85 + (winRate - 0.8) * 75
  else if winRate ≥ 0.6 then 70 + (winRate - 0.6) * 75
  else if winRate ≥ 0.5 then 50 + (winRate - 0.5) * 200
  else if winRate ≥ 0.3 then 20 + (winRate - 0.3) * 150
  else winRate * 66.67

/-- Sharpe-ratio component (part_001 `calculateSharpeComponent`). -/
def calculateSharpeComponent (sharpe : ℚ) : ℚ :=
  if sharpe > 1.5 then 90 + min 10 ((sharpe - 1.5) * 10)
  else if sharpe > 0.5 then 60 + (sharpe - 0.5) * 30
  else if sharpe > 0 then 50 + sharpe * 20
  else if sharpe > -1 then 30 + sharpe * 20
  else max 0 (30 + sharpe * 10)

/-- Alpha component (part_001 `calculateAlphaComponent`). -/
def calculateAlphaComponent (alpha : ℚ) : ℚ :=
  if alpha > 20 then 80 + min 20 ((alpha - 20) * 0.5)
  else if alpha > 0 then 50 + alpha * 1.5
  else if alpha > -20 then 50 + alpha * 1.5
  else max 0 (50 + alpha * 0.5)

/-- Quality component (part_001 `calculateQualityComponent`). -/
def calculateQualityComponent (rugPromotions goodCalls totalCalls : ℚ) : ℚ :=
  if totalCalls = 0 then 50
  else
    let goodRatio := goodCalls / totalCalls
    let rugRatio := rugPromotions / totalCalls
    let quality := goodRatio * 100 - rugRatio * 200
    let quality := if goodRatio > 0.5 then quality + 20 else quality
    max 0 (min 100 quality)

/-- Multiplicative volume adjustment (part_001 `calculateVolumeAdjustment`). -/
def calculateVolumeAdjustment (totalCalls : ℚ) (archetype : String) : ℚ :=
  let tolerance := params.volumeToleranceByArchetype archetype
  let normal := params.normalVolumeThreshold * tolerance
  let high := params.highVolumeThreshold * tolerance
  let extreme := params.extremeVolumeThreshold * tolerance
  if totalCalls ≤ normal then 1.0
  else if totalCalls ≤ high then
    1.0 - (totalCalls - normal) / (high - normal) * 0.2
  else if totalCalls ≤ extreme then
    0.8 - (totalCalls - high) / (extreme - high) * 0.3
  else 0.5

/-- Archetype performance scaling (part_001 `getArchetypeScaling`,
`scaling[archetype] || 0.9`). -/
def getArchetypeScaling (archetype : String) : ℚ :=
  if archetype = "elite_analyst" then 1.15
  else if archetype = "skilled_trader" then 1.1
  else if archetype = "technical_analyst" then 1.05
  else if archetype = "contrarian" then 1.0
  else if archetype = "newbie" then 0.95
  else if archetype = "fomo_trader" then 0.85
  else if archetype = "pump_chaser" then 0.75
  else if archetype = "bot_spammer" then 0.6
  else if archetype = "rug_promoter" then 0.5
  else 0.9

/-- Balanced trust score (part_001 `calculateBalancedTrustScore` lines 49-94). -/
def calculateBalancedTrustScore (metrics : TrustScoreMetrics) (archetype : String)
    (rugPromotions goodCalls totalCalls : ℚ) : ℚ :=
  let archetypeBase := getArchetypeBase archetype
  let performanceScore :=
    calculateProfitComponent metrics.averageProfit * params.profitWeight +
    calculateWinRateComponent metrics.winRate * params.winRateWeight +
    calculateSharpeComponent metrics.sharpeRatio * params.sharpeWeight +
    calculateAlphaComponent metrics.alpha * params.alphaWeight +
    metrics.consistency * 100 * params.consistencyWeight +
    calculateQualityComponent rugPromotions goodCalls totalCalls * params.qualityWeight
  let scaledPerformance := performanceScore * getArchetypeScaling archetype
  let volumeAdjustment := calculateVolumeAdjustment totalCalls archetype
  let combined := (archetypeBase * 0.4 + scaledPerformance * 0.6) * volumeAdjustment
  let finalScore :=
    if totalCalls < 5 then combined * 0.8
    else if totalCalls < 10 then combined * 0.9
    else combined
  min 100 (max 0 finalScore)

end BalancedTrustScoreCalculator

/-- Scenario configuration record of the token simulation service
(`tokenSimulationService.ts`, interface `TokenScenario`), restricted to the
fields the rug trajectory reads; `rugTiming` is optional in the source and
the trajectory reads it through a non-null assertion, modelled as `.getD 0`
(which agrees with the JavaScript comparison `step < undefined` being false). -/
structure TokenScenarioConfig where
  initialPrice : ℚ
  rugTiming : Option ℕ
deriving DecidableEq, Repr

namespace TokenSimulationService

/-- Rug price trajectory (`tokenSimulationService.ts`
`createRugTrajectory`, lines 231-241). -/
def createRugTrajectory (scenario : TokenScenarioConfig) (step : ℕ) : ℚ :=
  if step < scenario.rugTiming.getD 0 then
    scenario.initialPrice * 1.5 ^ step
  else
    scenario.initialPrice * 0.001

end TokenSimulationService

/-- Sentiment of a simulated call (part_002 `SimulatedCallData.sentiment`). -/
inductive Sentiment where
  | positive
  | negative
  | neutral
deriving DecidableEq, Repr

/-- Token scenario tags (part_002 `enum TokenScenario`). -/
inductive TokenScenario where
  | RUG_PULL_FAST
  | RUG_PULL_SLOW
  | SCAM_TOKEN
  | RUNNER_MOON
  | RUNNER_STEADY
  | SUCCESSFUL
  | MEDIOCRE
  | STAGNANT
  | BLUE_CHIP
  | PUMP_AND_DUMP
  | SLOW_BLEED
deriving DecidableEq, Repr

/-- One price point of a token's history (part_002 `TokenPrice`). -/
structure TokenPrice where
  timestamp : ℤ
  price : ℚ
  volume : ℚ
  liquidity : ℚ
  marketCap : ℚ
deriving DecidableEq, Repr

instance : Inhabited TokenPrice := ⟨⟨0, 0, 0, 0, 0⟩⟩

/-- Simulation metadata of a call (part_002 `SimulatedCallData.simulationMetadata`),
restricted to the fields read by the embedded core (`tokenScenario`,
`actorArchetype`, `actualProfit`). -/
structure SimulationMetadata where
  tokenScenario : TokenScenario
  actorArchetype : String
  actualProfit : Option ℚ
deriving DecidableEq, Repr

/-- A simulated call (part_002 `SimulatedCallData`), restricted to the fields
read by the embedded core. -/
structure SimulatedCallData where
  userId : String
  username : String
  timestamp : ℤ
  caMentioned : Option String
  sentiment : Sentiment
  simulationMetadata : SimulationMetadata
deriving DecidableEq, Repr

/-- A simulated token (part_002 `SimulationToken`), restricted to the fields
read by the embedded core (`address`, `scenario`). -/
structure SimulationToken where
  address : String
  scenario : TokenScenario
deriving DecidableEq, Repr

/-- Per-actor aggregate performance (part_002 `SimulationResult.actorPerformance`
values); the enhanced scoring loop iterates these entries but reads only the
keys. -/
structure ActorPerformance where
  totalCalls : ℚ
  profitableCalls : ℚ
  totalProfit : ℚ
  averageProfit : ℚ
deriving DecidableEq, Repr

/-- A simulation result (part_002 `SimulationResult`); the `Map`s are modelled
as association lists in insertion order. -/
structure SimulationResult where
  calls : List SimulatedCallData
  tokens : List (String × SimulationToken)
  priceHistory : List (String × List TokenPrice)
  actorPerformance : List (String × ActorPerformance)

namespace SimulationRunner

/-- The rug/scam scenario set tested by `calculateActualProfits`
(part_002 lines 954-960). -/
def rugScenarios : List TokenScenario :=
  [TokenScenario.RUG_PULL_FAST, TokenScenario.RUG_PULL_SLOW, TokenScenario.SCAM_TOKEN]

/-- JavaScript `Array.prototype.findIndex` over a price history, searching for
the price point whose timestamp equals the call timestamp (part_002 line 930);
`none` models the -1 result. -/
def findCallIndex (ts : ℤ) : List TokenPrice → Option ℕ
  | [] => none
  | p :: rest =>
    if p.timestamp = ts then some 0
    else (findCallIndex ts rest).map (· + 1)

/-- Rug-detection loop of `calculateActualProfits` (part_002 lines 961-970):
offset of the first scanned price strictly below the threshold. -/
def findPriceBelow (threshold : ℚ) : List TokenPrice → Option ℕ
  | [] => none
  | p :: rest =>
    if p.price < threshold then some 0
    else (findPriceBelow threshold rest).map (· + 1)

/-- Dump-detection loop of `calculateActualProfits` (part_002 lines 973-985):
walk the scanned suffix tracking the running peak, stopping at the first
price below 30% of the peak; returns the offset of that step. -/
def findDump (peakPrice : ℚ) : List TokenPrice → Option ℕ
  | [] => none
  | p :: rest =>
    if p.price > peakPrice then (findDump p.price rest).map (· + 1)
    else if p.price < peakPrice * 0.3 then some 0
    else (findDump peakPrice rest).map (· + 1)

/-- Exit index and forced-exit flag for a positive-sentiment call on a
rug/scam token (part_002 lines 961-971): scan after the call for the first
price below 10% of the call price; `rugIndex` stays at the call index when
none is found. -/
def rugExit (history : List TokenPrice) (callIndex : ℕ) : ℕ × Bool :=
  match findPriceBelow ((history.getD callIndex default).price * 0.1)
      (history.drop (callIndex + 1)) with
  | some k => (callIndex + 1 + k, true)
  | none => (callIndex, false)

/-- Exit index and forced-exit flag for a positive-sentiment call on a
pump-and-dump token (part_002 lines 972-986): `dumpIndex` stays at the call
index when no dump is detected. -/
def pumpDumpExit (history : List TokenPrice) (callIndex : ℕ) : ℕ × Bool :=
  match findDump (history.getD callIndex default).price (history.drop (callIndex + 1)) with
  | some k => (callIndex + 1 + k, true)
  | none => (callIndex, false)

/-- Archetype-specific holding-period exit for positive calls on other
scenarios (part_002 lines 987-1004). -/
def holdExitIndex (archetype : String) (history : List TokenPrice) (callIndex : ℕ) : ℕ :=
  if archetype = "elite_analyst" then min (callIndex + 72) (history.length - 1)
  else if archetype = "skilled_trader" then min (callIndex + 48) (history.length - 1)
  else if archetype ∈ ["pump_chaser", "fomo_trader"] then min (callIndex + 24) (history.length - 1)
  else min (callIndex + 24) (history.length - 1)

/-- Exit index and forced-exit flag for a positive-sentiment call
(part_002 lines 949-1004). -/
def positiveExit (scenario : TokenScenario) (archetype : String)
    (history : List TokenPrice) (callIndex : ℕ) : ℕ × Bool :=
  if scenario ∈ rugScenarios then rugExit history callIndex
  else if scenario = TokenScenario.PUMP_AND_DUMP then pumpDumpExit history callIndex
  else (holdExitIndex archetype history callIndex, false)

/-- Entry slippage by archetype (part_002 lines 1009-1030). -/
def effectiveEntryPrice (archetype : String) (scenario : TokenScenario) (entryPrice : ℚ) : ℚ :=
  if archetype ∈ ["fomo_trader", "pump_chaser"] then entryPrice * 1.15
  else if archetype = "rug_promoter" then
    if scenario ∈ rugScenarios then entryPrice * 1.2 else entryPrice
  else if archetype = "elite_analyst" then entryPrice * 0.98
  else entryPrice

/-- Exit slippage on forced exits for momentum archetypes
(part_002 lines 1032-1041). -/
def effectiveExitPrice (archetype : String) (forcedExit : Bool) (exitPrice : ℚ) : ℚ :=
  if forcedExit ∧ archetype ∈ ["pump_chaser", "fomo_trader", "rug_promoter"] then
    exitPrice * 0.9
  else exitPrice

/-- Realized profit of a positive-sentiment call (part_002 lines 949-1046). -/
def computePositiveProfit (scenario : TokenScenario) (archetype : String)
    (history : List TokenPrice) (callIndex : ℕ) : ℚ :=
  let exitInfo := positiveExit scenario archetype history callIndex
  let entryPrice := (history.getD callIndex default).price
  let exitPrice := (history.getD exitInfo.1 default).price
  let effEntry := effectiveEntryPrice archetype scenario entryPrice
  let effExit := effectiveExitPrice archetype exitInfo.2 exitPrice
  (effExit - effEntry) / effEntry * 100

/-- Realized profit of a negative-sentiment call, scored as a 24-step short
(part_002 lines 937-947). -/
def computeNegativeProfit (history : List TokenPrice) (callIndex : ℕ) : ℚ :=
  let entryPrice := (history.getD callIndex default).price
  let exitIndex := min (callIndex + 24) (history.length - 1)
  let exitPrice := (history.getD exitIndex default).price
  (entryPrice - exitPrice) / entryPrice * 100

/-- Write a computed profit into a call's simulation metadata (the single
mutation `call.simulationMetadata.actualProfit = …` of part_002). -/
def setActualProfit (call : SimulatedCallData) (profit : ℚ) : SimulatedCallData :=
  { call with simulationMetadata := { call.simulationMetadata with actualProfit := some profit } }

/-- Per-call body of the profit back-fill loop of `calculateActualProfits`
(part_002 lines 925-1047); a call whose token is not in the registry is left
untouched (`continue`). -/
def updateCallProfit (tokens : List (String × SimulationToken))
    (priceHistory : List (String × List TokenPrice))
    (call : SimulatedCallData) : SimulatedCallData :=
  match tokens.lookup (call.caMentioned.getD "") with
  | none => call
  | some token =>
    let history := (priceHistory.lookup token.address).getD []
    match findCallIndex call.timestamp history with
    | none => setActualProfit call 0
    | some callIndex =>
      if callIndex = history.length - 1 then setActualProfit call 0
      else if call.sentiment = Sentiment.negative then
        setActualProfit call (computeNegativeProfit history callIndex)
      else
        setActualProfit call (computePositiveProfit token.scenario
          call.simulationMetadata.actorArchetype history callIndex)

/-- Profit back-fill pass of `SimulationRunner.calculateActualProfits`
(part_002 lines 920-1050), modelled functionally: the in-place mutation of
each call becomes a map over the call log. -/
def calculateActualProfits (calls : List SimulatedCallData)
    (tokens : List (String × SimulationToken))
    (priceHistory : List (String × List TokenPrice)) : List SimulatedCallData :=
  calls.map (updateCallProfit tokens priceHistory)

/-- Running peak price over the steps from the call step `c` through step
`i - 1` of a price list, seeded with the call-step price — the value of the
dump-detection loop's peak variable at the moment step `i` is examined. -/
def runningPeak (prices : List ℚ) (c i : ℕ) : ℚ :=
  ((prices.drop c).take (i - c)).foldl max (prices.getD c 0)

/-- Dump condition of the specification at step `i`: the price falls below
30% of the running peak since the call at step `c`. -/
def isDumpStep (prices : List ℚ) (c i : ℕ) : Prop :=
  prices.getD i 0 < runningPeak prices c i * 0.3

/-- Scan-level dump condition, phrased over the scanned suffix and the seed
peak carried by the detection loop. -/
def scanDumpAt (prices : List ℚ) (peak : ℚ) (k : ℕ) : Prop :=
  prices.getD k 0 < (prices.take k).foldl max peak * 0.3

end SimulationRunner

/-- Trust score calculation result (part_000 `TrustScoreResult`). -/
structure TrustScoreResult where
  userId : String
  username : String
  calculatedScore : ℚ
  expectedScore : ℚ
  difference : ℚ
  metrics : TrustScoreMetrics
deriving DecidableEq, Repr

/-- Accuracy record (part_000 `OptimizationResult.accuracy`). -/
structure AccuracyRecord where
  mae : ℚ
  rmse : ℚ
  correlation : ℚ
  rankingAccuracy : ℚ
deriving DecidableEq, Repr

/-- Optimizable trust-score parameters (part_000 `TrustScoreParameters`). -/
structure TrustScoreParameters where
  profitWeight : ℚ
  consistencyWeight : ℚ
  volumeWeight : ℚ
  alphaWeight : ℚ
  sharpeWeight : ℚ
  minCallsThreshold : ℚ
  volumePenaltyThreshold : ℚ
  timeDecayFactor : ℚ
  rugPullPenalty : ℚ
deriving DecidableEq, Repr

/-- Keys of `TrustScoreParameters` (`keyof TrustScoreParameters` in the
grid-search signature of part_000). -/
inductive ParameterKey where
  | profitWeight
  | consistencyWeight
  | volumeWeight
  | alphaWeight
  | sharpeWeight
  | minCallsThreshold
  | volumePenaltyThreshold
  | timeDecayFactor
  | rugPullPenalty
deriving DecidableEq, Repr

/-- Read a parameter by key (`params[key]`). -/
def getParam (p : TrustScoreParameters) : ParameterKey → ℚ
  | .profitWeight => p.profitWeight
  | .consistencyWeight => p.consistencyWeight
  | .volumeWeight => p.volumeWeight
  | .alphaWeight => p.alphaWeight
  | .sharpeWeight => p.sharpeWeight
  | .minCallsThreshold => p.minCallsThreshold
  | .volumePenaltyThreshold => p.volumePenaltyThreshold
  | .timeDecayFactor => p.timeDecayFactor
  | .rugPullPenalty => p.rugPullPenalty

/-- Write a parameter by key (`current[key] = value`). -/
def setParam (p : TrustScoreParameters) : ParameterKey → ℚ → TrustScoreParameters
  | .profitWeight, v => { p with profitWeight := v }
  | .consistencyWeight, v => { p with consistencyWeight := v }
  | .volumeWeight, v => { p with volumeWeight := v }
  | .alphaWeight, v => { p with alphaWeight := v }
  | .sharpeWeight, v => { p with sharpeWeight := v }
  | .minCallsThreshold, v => { p with minCallsThreshold := v }
  | .volumePenaltyThreshold, v => { p with volumePenaltyThreshold := v }
  | .timeDecayFactor, v => { p with timeDecayFactor := v }
  | .rugPullPenalty, v => { p with rugPullPenalty := v }

/-- Actor configuration (part_002 `ActorConfig`). -/
structure ActorConfig where
  id : String
  username : String
  archetype : String
  expectedTrustScore : ℚ
  tokenPreferences : List TokenScenario
  callFrequency : String
  timingBias : String
deriving DecidableEq, Repr

namespace TrustScoreOptimizer

/-- Default optimizer parameters (part_000 constructor, lines 74-84). -/
def defaultParameters : TrustScoreParameters where
  profitWeight := 0.25
  consistencyWeight := 0.25
  volumeWeight := 0.15
  alphaWeight := 0.15
  sharpeWeight := 0.2
  minCallsThreshold := 5
  volumePenaltyThreshold := 50
  timeDecayFactor := 0.95
  rugPullPenalty := 2.0

/-- Default actor set (part_000 `createDefaultActors`, lines 157-271). -/
def createDefaultActors : List ActorConfig :=
  [⟨"elite-1", "EliteTrader", "elite_analyst", 95,
      [TokenScenario.SUCCESSFUL, TokenScenario.RUNNER_MOON, TokenScenario.BLUE_CHIP],
      "medium", "early"⟩,
    ⟨"skilled-1", "ProfitMaker", "skilled_trader", 75,
      [TokenScenario.SUCCESSFUL, TokenScenario.RUNNER_STEADY, TokenScenario.PUMP_AND_DUMP],
      "medium", "early"⟩,
    ⟨"pump-1", "MoonChaser", "pump_chaser", 25,
      [TokenScenario.PUMP_AND_DUMP, TokenScenario.RUG_PULL_FAST, TokenScenario.SCAM_TOKEN],
      "high", "late"⟩,
    ⟨"rug-1", "RugPromotoor", "rug_promoter", 10,
      [TokenScenario.RUG_PULL_FAST, TokenScenario.RUG_PULL_SLOW, TokenScenario.SCAM_TOKEN],
      "high", "early"⟩,
    ⟨"fomo-1", "FomoFollower", "fomo_trader", 30,
      [TokenScenario.RUNNER_MOON, TokenScenario.PUMP_AND_DUMP], "high", "late"⟩,
    ⟨"contrarian-1", "Contrarian", "contrarian", 60,
      [TokenScenario.MEDIOCRE, TokenScenario.STAGNANT, TokenScenario.SLOW_BLEED],
      "medium", "random"⟩,
    ⟨"ta-1", "ChartGuru", "technical_analyst", 65,
      [TokenScenario.BLUE_CHIP, TokenScenario.SUCCESSFUL, TokenScenario.RUNNER_STEADY],
      "low", "middle"⟩,
    ⟨"newbie-1", "CryptoNewb", "newbie", 40, [], "medium", "random"⟩,
    ⟨"bot-1", "SpamBot9000", "bot_spammer", 15,
      [TokenScenario.SCAM_TOKEN, TokenScenario.RUG_PULL_FAST, TokenScenario.PUMP_AND_DUMP],
      "high", "random"⟩]

/-- JavaScript numeric truthy-or (`x || y`): 0 falls back to the default. -/
def jsOr (x y : ℚ) : ℚ := if x = 0 then y else x

/-- JavaScript string truthy-or (`x || y`): the empty string falls back. -/
def jsOrString (x y : String) : String := if x = "" then y else x

/-- Sharpe ratio (part_000 `calculateSharpeRatio`, lines 364-372);
the square root is the abstract `sqrtQ`. -/
def calculateSharpeRatio (sqrtQ : ℚ → ℚ) (profits : List ℚ) : ℚ :=
  if profits.length < 2 then 0
  else
    let mean := profits.sum / (profits.length : ℚ)
    let variance := (profits.map (fun p => (p - mean) ^ 2)).sum / (profits.length : ℚ)
    let stdDev := sqrtQ variance
    if stdDev > 0 then mean / stdDev else 0

/-- Market return (part_000 `calculateMarketReturn`, lines 377-392): average
percentage return over all tokens with at least two price points. -/
def calculateMarketReturn (simulationData : SimulationResult) : ℚ :=
  let returns := simulationData.priceHistory.filterMap fun e =>
    if 2 ≤ e.2.length then
      some (((e.2.getLastD default).price - (e.2.headD default).price) /
        (e.2.headD default).price * 100)
    else none
  if 0 < returns.length then returns.sum / (returns.length : ℚ) else 0

/-- Consistency score (part_000 `calculateConsistency`, lines 397-405). -/
def calculateConsistency (profits : List ℚ) : ℚ :=
  if profits.length < 3 then 0
  else (profits.map (fun p => if p > 0 then (1 : ℚ) else 0)).sum / (profits.length : ℚ)

/-- Per-actor metrics (part_000 `calculateMetrics`, lines 316-359). -/
def calculateMetrics (currentParams : TrustScoreParameters) (sqrtQ : ℚ → ℚ)
    (calls : List SimulatedCallData) (simulationData : SimulationResult) : TrustScoreMetrics :=
  let profits := (calls.map fun call => call.simulationMetadata.actualProfit.getD 0).filter
    fun p => p ≠ 0
  let profitableCalls := (profits.filter fun p => p > 0).length
  let totalCalls := calls.length
  let winRate := if 0 < totalCalls then (profitableCalls : ℚ) / (totalCalls : ℚ) else 0
  let cappedProfits := profits.map fun p => min (max p (-100)) 200
  let averageProfit :=
    if 0 < cappedProfits.length then cappedProfits.sum / (cappedProfits.length : ℚ) else 0
  let sharpeRatio := calculateSharpeRatio sqrtQ cappedProfits
  let marketReturn := calculateMarketReturn simulationData
  let alpha := averageProfit - marketReturn
  let volumePenalty := max 0 (1 - (totalCalls : ℚ) / currentParams.volumePenaltyThreshold)
  let consistency := calculateConsistency cappedProfits
  { totalCalls := totalCalls, profitableCalls := profitableCalls,
    averageProfit := averageProfit, winRate := winRate, sharpeRatio := sharpeRatio,
    alpha := alpha, volumePenalty := volumePenalty, consistency := consistency }

/-- Rug/scam scenario set of the token-quality loop (part_000 lines 592-598). -/
def rugScenarioSet : List TokenScenario :=
  [TokenScenario.RUG_PULL_FAST, TokenScenario.RUG_PULL_SLOW, TokenScenario.SCAM_TOKEN]

/-- Good scenario set of the token-quality loop (part_000 lines 604-607). -/
def goodScenarioSet : List TokenScenario :=
  [TokenScenario.SUCCESSFUL, TokenScenario.RUNNER_MOON, TokenScenario.BLUE_CHIP]

/-- Token-quality counting loop of `calculateTrustScoresEnhanced`
(part_000 lines 584-613); the accumulator is
(rugPromotionPenalty, goodCallBonus). -/
def callQualityCounts (actorCalls : List SimulatedCallData) : ℚ × ℚ :=
  actorCalls.foldl
    (fun acc call =>
      let profit := call.simulationMetadata.actualProfit.getD 0
      if call.simulationMetadata.tokenScenario ∈ rugScenarioSet then
        if call.sentiment = Sentiment.positive then (acc.1 + 1, acc.2)
        else if call.sentiment = Sentiment.negative ∧ profit > 0 then (acc.1, acc.2 + 1)
        else acc
      else if call.simulationMetadata.tokenScenario ∈ goodScenarioSet then
        if call.sentiment = Sentiment.positive ∧ profit > 20 then (acc.1, acc.2 + 1)
        else acc
      else acc)
    (0, 0)

/-- One loop iteration of `calculateTrustScoresEnhanced`
(part_000 lines 570-632): `none` models the `continue` on actors with no
calls. -/
def scoreEntry (sqrtQ : ℚ → ℚ) (currentParams : TrustScoreParameters)
    (simulationData : SimulationResult) (entry : String × ActorPerformance) :
    Option TrustScoreResult :=
  match simulationData.calls.filter (fun call => call.userId == entry.1) with
  | [] => none
  | c0 :: rest =>
    let actorCalls := c0 :: rest
    let actor := createDefaultActors.find? fun a => a.id == entry.1
    let expectedScore :=
      match actor with
      | none => 50
      | some a => jsOr a.expectedTrustScore 50
    let metrics := calculateMetrics currentParams sqrtQ actorCalls simulationData
    let counts := callQualityCounts actorCalls
    let archetype :=
      match actor with
      | none => "unknown"
      | some a => jsOrString a.archetype "unknown"
    let calculatedScore := BalancedTrustScoreCalculator.calculateBalancedTrustScore
      metrics archetype counts.1 counts.2 actorCalls.length
    some
      { userId := entry.1, username := c0.username, calculatedScore := calculatedScore,
        expectedScore := expectedScore, difference := abs (calculatedScore - expectedScore),
        metrics := metrics }

/-- Stable insertion of the JavaScript stable sort by descending calculated
score. -/
def insertByScore (x : TrustScoreResult) : List TrustScoreResult → List TrustScoreResult
  | [] => [x]
  | y :: ys =>
    if y.calculatedScore ≤ x.calculatedScore then x :: y :: ys
    else y :: insertByScore x ys

/-- Effect of the stable JavaScript
`results.sort((a, b) => b.calculatedScore - a.calculatedScore)`
(part_000 line 635). -/
def sortByScoreDesc : List TrustScoreResult → List TrustScoreResult
  | [] => []
  | x :: xs => insertByScore x (sortByScoreDesc xs)

/-- Enhanced trust-score computation (part_000 `calculateTrustScoresEnhanced`,
lines 565-638). -/
def calculateTrustScoresEnhanced (sqrtQ : ℚ → ℚ) (currentParams : TrustScoreParameters)
    (simulationData : SimulationResult) : List TrustScoreResult :=
  sortByScoreDesc
    (simulationData.actorPerformance.filterMap (scoreEntry sqrtQ currentParams simulationData))

/-- Pearson correlation (part_000 `calculateCorrelation`, lines 681-693). -/
def calculateCorrelation (sqrtQ : ℚ → ℚ) (x y : List ℚ) : ℚ :=
  let n : ℚ := x.length
  let sumX := x.sum
  let sumY := y.sum
  let sumXY := ((x.zip y).map fun p => p.1 * p.2).sum
  let sumX2 := (x.map fun v => v * v).sum
  let sumY2 := (y.map fun v => v * v).sum
  let numerator := n * sumXY - sumX * sumY
  let denominator := sqrtQ ((n * sumX2 - sumX * sumX) * (n * sumY2 - sumY * sumY))
  if denominator = 0 then 0 else numerator / denominator

/-- Pair-ordering test of the ranking-accuracy loop (part_000 lines 706-715). -/
def pairOrderCorrect (a b : TrustScoreResult) : Bool :=
  let calcDiff := a.calculatedScore - b.calculatedScore
  let expDiff := a.expectedScore - b.expectedScore
  (calcDiff > 0 ∧ expDiff > 0) ∨ (calcDiff < 0 ∧ expDiff < 0) ∨
    (calcDiff = 0 ∧ expDiff = 0)

/-- Count of correctly ordered pairs: each element is compared against every
later element (the nested loops of part_000 lines 702-718). -/
def correctPairCount : List TrustScoreResult → ℕ
  | [] => 0
  | x :: xs => (xs.filter (pairOrderCorrect x)).length + correctPairCount xs

/-- Count of all compared pairs (the `totalPairs` counter). -/
def totalPairCount : List TrustScoreResult → ℕ
  | [] => 0
  | _ :: xs => xs.length + totalPairCount xs

/-- Ranking accuracy (part_000 `calculateRankingAccuracy`, lines 698-721). -/
def calculateRankingAccuracy (scores : List TrustScoreResult) : ℚ :=
  if 0 < totalPairCount scores then
    ((correctPairCount scores : ℚ) / (totalPairCount scores : ℚ)) * 100
  else 0

/-- Accuracy evaluation (part_000 `evaluateAccuracy`, lines 643-676). -/
def evaluateAccuracy (sqrtQ : ℚ → ℚ) (scores : List TrustScoreResult) : AccuracyRecord :=
  if scores.length = 0 then
    { mae := 100, rmse := 100, correlation := 0, rankingAccuracy := 0 }
  else
    let mae := (scores.map fun s => s.difference).sum / (scores.length : ℚ)
    let mse := (scores.map fun s => s.difference ^ 2).sum / (scores.length : ℚ)
    let rmse := sqrtQ mse
    let correlation := calculateCorrelation sqrtQ
      (scores.map fun s => s.calculatedScore) (scores.map fun s => s.expectedScore)
    { mae := mae, rmse := rmse, correlation := correlation,
      rankingAccuracy := calculateRankingAccuracy scores }

/-- Cartesian-product enumeration of the supplied parameter ranges over the
current parameters (part_000 `generateParameterCombinations`, lines 914-939). -/
def generateParameterCombinations (ranges : List (ParameterKey × List ℚ))
    (baseParams : TrustScoreParameters) : List TrustScoreParameters :=
  match ranges with
  | [] => [baseParams]
  | (key, values) :: rest =>
    values.flatMap fun v => generateParameterCombinations rest (setParam baseParams key v)

/-- Strictly-better test of the grid search (`accuracy.mae < bestScore`,
part_000 line 898); `none` models the initial `Infinity` best score. -/
def betterThan (mae : ℚ) : Option ℚ → Bool
  | none => true
  | some b => mae < b

/-- Best-candidate fold of the grid search (part_000 lines 879-905). -/
def selectBestParams (maeOf : TrustScoreParameters → ℚ)
    (combos : List TrustScoreParameters) (current : TrustScoreParameters) :
    TrustScoreParameters :=
  (combos.foldl
    (fun best p => if betterThan (maeOf p) best.2 then (p, some (maeOf p)) else best)
    (current, (none : Option ℚ))).1

/-- Grid search (part_000 `optimizeParameters`, lines 873-909): each candidate
is installed as `currentParams`, the actor population is re-scored, and the
candidate with the strictly smallest MAE is retained. -/
def optimizeParameters (sqrtQ : ℚ → ℚ) (simulationData : SimulationResult)
    (ranges : List (ParameterKey × List ℚ)) (current : TrustScoreParameters) :
    TrustScoreParameters :=
  selectBestParams
    (fun p => (evaluateAccuracy sqrtQ (calculateTrustScoresEnhanced sqrtQ p simulationData)).mae)
    (generateParameterCombinations ranges current) current

/-- The specification's pair condition: the relative order, or tie, of the
two results matches between calculated and expected scores. -/
def pairMatches (a b : TrustScoreResult) : Prop :=
  (b.calculatedScore < a.calculatedScore ∧ b.expectedScore < a.expectedScore) ∨
  (a.calculatedScore < b.calculatedScore ∧ a.expectedScore < b.expectedScore) ∨
  (a.calculatedScore = b.calculatedScore ∧ a.expectedScore = b.expectedScore)

instance (a b : TrustScoreResult) : Decidable (pairMatches a b) := by
  unfold pairMatches; infer_instance

/-- Number of unordered pairs (each element against each later element) whose
relative order or tie matches. -/
def matchingPairCount (scores : List TrustScoreResult) : ℕ :=
  (scores.tails.map fun t =>
    match t with
    | [] => 0
    | x :: xs => xs.countP fun y => decide (pairMatches x y)).sum

/-- Fraction (a value in [0,1]) of all unordered pairs whose relative order
or tie matches between calculated and expected scores. -/
def matchingPairFraction (scores : List TrustScoreResult) : ℚ :=
  (matchingPairCount scores : ℚ) / (scores.length.choose 2 : ℚ)

/-- Zero out `volumePenalty`, the only metrics field whose value depends on
the installed optimizer parameters (it is computed from
`currentParams.volumePenaltyThreshold` and never read by the balanced
calculator). -/
def eraseVolumePenalty (r : TrustScoreResult) : TrustScoreResult :=
  { r with metrics := { r.metrics with volumePenalty := 0 } }

end TrustScoreOptimizer

namespace BalancedTrustScoreCalculator

/-- Every archetype's volume tolerance is at least 0.3 (the smallest table
entry; unknown archetypes fall back to 1.0). -/
theorem volumeTolerance_lower (archetype : String) :
    (0.3 : ℚ) ≤ params.volumeToleranceByArchetype archetype := by
  simp only [params]
  split_ifs <;> norm_num

/-- With no rug promotions and no good calls, the quality component is zero
whenever the call count is nonzero. -/
theorem qualityComponent_zero_zero (t : ℚ) (ht : t ≠ 0) :
    calculateQualityComponent 0 0 t = 0 := by
  unfold calculateQualityComponent
  rw [if_neg ht]
  norm_num

/-- The volume adjustment factor is never negative. -/
theorem volumeAdjustment_nonneg (totalCalls : ℚ) (archetype : String) :
    0 ≤ calculateVolumeAdjustment totalCalls archetype := by
  have htol := volumeTolerance_lower archetype
  unfold calculateVolumeAdjustment
  simp only [params] at htol ⊢
  set τ := (if archetype = "elite_analyst" then (2.0 : ℚ)
    else if archetype = "skilled_trader" then 1.5
    else if archetype = "technical_analyst" then 1.3
    else if archetype = "contrarian" then 1.0
    else if archetype = "newbie" then 0.8
    else if archetype = "fomo_trader" then 0.6
    else if archetype = "pump_chaser" then 0.5
    else if archetype = "bot_spammer" then 0.3
    else if archetype = "rug_promoter" then 0.3
    else 1.0) with hτ
  have hτpos : (0 : ℚ) < τ := lt_of_lt_of_le (by norm_num) htol
  split_ifs with h1 h2 h3
  · norm_num
  · have hd : (0 : ℚ) < 300 * τ - 100 * τ := by linarith
    have : (totalCalls - 100 * τ) / (300 * τ - 100 * τ) ≤ 1 := by
      rw [div_le_one hd]; linarith
    linarith
  · have hd : (0 : ℚ) < 500 * τ - 300 * τ := by linarith
    have : (totalCalls - 300 * τ) / (500 * τ - 300 * τ) ≤ 1 := by
      rw [div_le_one hd]; linarith
    linarith
  · norm_num

/-- Above the archetype-scaled high-volume threshold the volume adjustment
factor is non-increasing in the call count. -/
theorem volumeAdjustment_antitone (archetype : String) (t1 t2 : ℚ)
    (h1 : params.highVolumeThreshold * params.volumeToleranceByArchetype archetype < t1)
    (h12 : t1 ≤ t2) :
    calculateVolumeAdjustment t2 archetype ≤ calculateVolumeAdjustment t1 archetype := by
  have htol := volumeTolerance_lower archetype
  unfold calculateVolumeAdjustment
  simp only [params] at htol h1 ⊢
  set τ := (if archetype = "elite_analyst" then (2.0 : ℚ)
    else if archetype = "skilled_trader" then 1.5
    else if archetype = "technical_analyst" then 1.3
    else if archetype = "contrarian" then 1.0
    else if archetype = "newbie" then 0.8
    else if archetype = "fomo_trader" then 0.6
    else if archetype = "pump_chaser" then 0.5
    else if archetype = "bot_spammer" then 0.3
    else if archetype = "rug_promoter" then 0.3
    else 1.0) with hτ
  have hτpos : (0 : ℚ) < τ := lt_of_lt_of_le (by norm_num) htol
  have hd : (0 : ℚ) < 500 * τ - 300 * τ := by linarith
  rw [if_neg (show ¬ t2 ≤ 100 * τ by linarith),
    if_neg (show ¬ t2 ≤ 300 * τ by linarith),
    if_neg (show ¬ t1 ≤ 100 * τ by linarith),
    if_neg (show ¬ t1 ≤ 300 * τ by linarith)]
  rcases le_or_lt t2 (500 * τ) with hb2 | hb2
  · have hb1 : t1 ≤ 500 * τ := le_trans h12 hb2
    rw [if_pos hb2, if_pos hb1]
    have : (t1 - 300 * τ) / (500 * τ - 300 * τ) ≤ (t2 - 300 * τ) / (500 * τ - 300 * τ) := by
      rw [div_le_div_iff₀ hd hd]; nlinarith
    linarith
  · rw [if_neg (not_le.mpr hb2)]
    rcases le_or_lt t1 (500 * τ) with hb1 | hb1
    · rw [if_pos hb1]
      have : (t1 - 300 * τ) / (500 * τ - 300 * τ) ≤ 1 := by
        rw [div_le_one hd]; linarith
      linarith
    · rw [if_neg (not_le.mpr hb1)]

end BalancedTrustScoreCalculator

/-- C1: for every metrics record, every archetype string and all non-negative
rugPromotions, goodCalls and totalCalls arguments,
`calculateBalancedTrustScore` returns a value in the closed interval
[0, 100]. -/
theorem claim_C1_score_bounds (metrics : TrustScoreMetrics) (archetype : String)
    (rugPromotions goodCalls totalCalls : ℚ)
    (hr : 0 ≤ rugPromotions) (hg : 0 ≤ goodCalls) (ht : 0 ≤ totalCalls) :
    0 ≤ BalancedTrustScoreCalculator.calculateBalancedTrustScore metrics archetype
        rugPromotions goodCalls totalCalls ∧
    BalancedTrustScoreCalculator.calculateBalancedTrustScore metrics archetype
        rugPromotions goodCalls totalCalls ≤ 100 := by
  unfold BalancedTrustScoreCalculator.calculateBalancedTrustScore
  exact ⟨le_min (by norm_num) (le_max_left 0 _), min_le_left _ _⟩

/-- Witness for C1: the bounds hold at a concrete input. -/
theorem claim_C1_score_bounds_witness :
    0 ≤ BalancedTrustScoreCalculator.calculateBalancedTrustScore
        ⟨0, 0, 0, 0, 0, 0, 0, 0⟩ "newbie" 1 2 3 ∧
    BalancedTrustScoreCalculator.calculateBalancedTrustScore
        ⟨0, 0, 0, 0, 0, 0, 0, 0⟩ "newbie" 1 2 3 ≤ 100 :=
  claim_C1_score_bounds ⟨0, 0, 0, 0, 0, 0, 0, 0⟩ "newbie" 1 2 3
    (by norm_num) (by norm_num) (by norm_num)

/-- C3 is false as stated: with fixed metrics (all zero), archetype
"contrarian", 550 rug promotions and 1000 good calls, both 1600 and 1900
total calls lie above the archetype-tolerance-scaled high-volume threshold
(300 · 1.0 = 300), yet the score at 1900 is strictly greater than the score
at 1600 (the quality component's rug-promotion ratio shrinks as the call
count grows). -/
theorem claim_C3_counterexample :
    BalancedTrustScoreCalculator.params.highVolumeThreshold *
      BalancedTrustScoreCalculator.params.volumeToleranceByArchetype "contrarian" < 1600 ∧
    (1600 : ℚ) < 1900 ∧
    BalancedTrustScoreCalculator.calculateBalancedTrustScore
      ⟨0, 0, 0, 0, 0, 0, 0, 0⟩ "contrarian" 550 1000 1600 <
    BalancedTrustScoreCalculator.calculateBalancedTrustScore
      ⟨0, 0, 0, 0, 0, 0, 0, 0⟩ "contrarian" 550 1000 1900 := by
  refine ⟨?_, by norm_num, ?_⟩
  · simp only [BalancedTrustScoreCalculator.params, String.reduceEq, if_false]
    norm_num
  · simp only [BalancedTrustScoreCalculator.calculateBalancedTrustScore,
      BalancedTrustScoreCalculator.getArchetypeBase,
      BalancedTrustScoreCalculator.calculateProfitComponent,
      BalancedTrustScoreCalculator.calculateWinRateComponent,
      BalancedTrustScoreCalculator.calculateSharpeComponent,
      BalancedTrustScoreCalculator.calculateAlphaComponent,
      BalancedTrustScoreCalculator.calculateQualityComponent,
      BalancedTrustScoreCalculator.calculateVolumeAdjustment,
      BalancedTrustScoreCalculator.getArchetypeScaling,
      BalancedTrustScoreCalculator.params, String.reduceEq, if_false, if_true]
    norm_num

/-- C3 amended: when the two quality counters are zero (so the quality
component does not itself vary with the call count), the balanced trust
score is non-increasing in totalCalls on the region strictly above the
archetype-tolerance-scaled high-volume threshold. -/
theorem claim_C3_volume_monotone_amended (metrics : TrustScoreMetrics)
    (archetype : String) (t1 t2 : ℚ)
    (h1 : BalancedTrustScoreCalculator.params.highVolumeThreshold *
      BalancedTrustScoreCalculator.params.volumeToleranceByArchetype archetype < t1)
    (h12 : t1 < t2) :
    BalancedTrustScoreCalculator.calculateBalancedTrustScore metrics archetype 0 0 t2 ≤
    BalancedTrustScoreCalculator.calculateBalancedTrustScore metrics archetype 0 0 t1 := by
  have htol := BalancedTrustScoreCalculator.volumeTolerance_lower archetype
  have hth : (90 : ℚ) ≤ BalancedTrustScoreCalculator.params.highVolumeThreshold *
      BalancedTrustScoreCalculator.params.volumeToleranceByArchetype archetype := by
    have : BalancedTrustScoreCalculator.params.highVolumeThreshold = 300 := rfl
    rw [this]; linarith
  have ht1 : (90 : ℚ) < t1 := lt_of_le_of_lt hth h1
  have ht2 : (90 : ℚ) < t2 := lt_trans ht1 h12
  have hvol2 := BalancedTrustScoreCalculator.volumeAdjustment_nonneg t2 archetype
  have hvol1 := BalancedTrustScoreCalculator.volumeAdjustment_nonneg t1 archetype
  have hanti := BalancedTrustScoreCalculator.volumeAdjustment_antitone archetype t1 t2 h1 h12.le
  simp only [BalancedTrustScoreCalculator.calculateBalancedTrustScore]
  rw [BalancedTrustScoreCalculator.qualityComponent_zero_zero t1 (by linarith),
    BalancedTrustScoreCalculator.qualityComponent_zero_zero t2 (by linarith)]
  rw [if_neg (by linarith : ¬ t1 < 5), if_neg (by linarith : ¬ t1 < 10),
    if_neg (by linarith : ¬ t2 < 5), if_neg (by linarith : ¬ t2 < 10)]
  set P := (BalancedTrustScoreCalculator.getArchetypeBase archetype * 0.4 +
    (BalancedTrustScoreCalculator.calculateProfitComponent metrics.averageProfit *
        BalancedTrustScoreCalculator.params.profitWeight +
      BalancedTrustScoreCalculator.calculateWinRateComponent metrics.winRate *
        BalancedTrustScoreCalculator.params.winRateWeight +
      BalancedTrustScoreCalculator.calculateSharpeComponent metrics.sharpeRatio *
        BalancedTrustScoreCalculator.params.sharpeWeight +
      BalancedTrustScoreCalculator.calculateAlphaComponent metrics.alpha *
        BalancedTrustScoreCalculator.params.alphaWeight +
      metrics.consistency * 100 * BalancedTrustScoreCalculator.params.consistencyWeight +
      0 * BalancedTrustScoreCalculator.params.qualityWeight) *
      BalancedTrustScoreCalculator.getArchetypeScaling archetype * 0.6) with hP
  rcases le_or_lt 0 P with hpos | hneg
  · have : P * BalancedTrustScoreCalculator.calculateVolumeAdjustment t2 archetype ≤
        P * BalancedTrustScoreCalculator.calculateVolumeAdjustment t1 archetype :=
      mul_le_mul_of_nonneg_left hanti hpos
    exact min_le_min (le_refl _) (max_le_max (le_refl _) this)
  · have hz2 : P * BalancedTrustScoreCalculator.calculateVolumeAdjustment t2 archetype ≤ 0 :=
      mul_nonpos_iff.mpr (Or.inr ⟨hneg.le, hvol2⟩)
    have hz1 : P * BalancedTrustScoreCalculator.calculateVolumeAdjustment t1 archetype ≤ 0 :=
      mul_nonpos_iff.mpr (Or.inr ⟨hneg.le, hvol1⟩)
    rw [max_eq_left hz2, max_eq_left hz1]

/-- Witness for amended C3 at a concrete input. -/
theorem claim_C3_volume_monotone_amended_witness :
    BalancedTrustScoreCalculator.calculateBalancedTrustScore
      ⟨0, 0, 0, 0, 0, 0, 0, 0⟩ "contrarian" 0 0 1900 ≤
    BalancedTrustScoreCalculator.calculateBalancedTrustScore
      ⟨0, 0, 0, 0, 0, 0, 0, 0⟩ "contrarian" 0 0 1600 :=
  claim_C3_volume_monotone_amended ⟨0, 0, 0, 0, 0, 0, 0, 0⟩ "contrarian" 1600 1900
    (by simp only [BalancedTrustScoreCalculator.params, String.reduceEq, if_false]; norm_num)
    (by norm_num)

/-- C9: for a rug scenario with configured rug step `r`, the trajectory
returns initialPrice · 1.5 ^ s before the rug step, initialPrice · 0.001
from the rug step on, and is non-negative whenever the initial price is. -/
theorem claim_C9_rug_trajectory (initialPrice : ℚ) (r s : ℕ) (hp : 0 ≤ initialPrice) :
    (s < r → TokenSimulationService.createRugTrajectory ⟨initialPrice, some r⟩ s =
      initialPrice * 1.5 ^ s) ∧
    (r ≤ s → TokenSimulationService.createRugTrajectory ⟨initialPrice, some r⟩ s =
      initialPrice * 0.001) ∧
    0 ≤ TokenSimulationService.createRugTrajectory ⟨initialPrice, some r⟩ s := by
  unfold TokenSimulationService.createRugTrajectory
  simp only [Option.getD_some]
  refine ⟨fun h => by rw [if_pos h], fun h => by rw [if_neg (Nat.not_lt.mpr h)], ?_⟩
  split
  · exact mul_nonneg hp (pow_nonneg (by norm_num) s)
  · exact mul_nonneg hp (by norm_num)

/-- Witness for C9 at concrete inputs on both sides of the rug step. -/
theorem claim_C9_rug_trajectory_witness :
    TokenSimulationService.createRugTrajectory ⟨2, some 3⟩ 2 = 2 * 1.5 ^ 2 ∧
    TokenSimulationService.createRugTrajectory ⟨2, some 3⟩ 5 = 2 * 0.001 :=
  ⟨(claim_C9_rug_trajectory 2 3 2 (by norm_num)).1 (by norm_num),
    (claim_C9_rug_trajectory 2 3 5 (by norm_num)).2.1 (by norm_num)⟩

namespace SimulationRunner

@[simp]
theorem setActualProfit_caMentioned (call : SimulatedCallData) (v : ℚ) :
    (setActualProfit call v).caMentioned = call.caMentioned := rfl

@[simp]
theorem setActualProfit_timestamp (call : SimulatedCallData) (v : ℚ) :
    (setActualProfit call v).timestamp = call.timestamp := rfl

@[simp]
theorem setActualProfit_sentiment (call : SimulatedCallData) (v : ℚ) :
    (setActualProfit call v).sentiment = call.sentiment := rfl

@[simp]
theorem setActualProfit_archetype (call : SimulatedCallData) (v : ℚ) :
    (setActualProfit call v).simulationMetadata.actorArchetype =
      call.simulationMetadata.actorArchetype := rfl

@[simp]
theorem setActualProfit_actualProfit (call : SimulatedCallData) (v : ℚ) :
    (setActualProfit call v).simulationMetadata.actualProfit = some v := rfl

@[simp]
theorem setActualProfit_setActualProfit (call : SimulatedCallData) (v w : ℚ) :
    setActualProfit (setActualProfit call v) w = setActualProfit call w := rfl

/-- The per-call profit computation reads only fields that writing the profit
leaves unchanged, so re-running it on an already updated call recomputes the
same value. -/
theorem updateCallProfit_idem (tokens : List (String × SimulationToken))
    (priceHistory : List (String × List TokenPrice)) (call : SimulatedCallData) :
    updateCallProfit tokens priceHistory (updateCallProfit tokens priceHistory call) =
      updateCallProfit tokens priceHistory call := by
  cases h : tokens.lookup (call.caMentioned.getD "") with
  | none =>
    simp only [updateCallProfit, h]
  | some token =>
    cases h2 : findCallIndex call.timestamp ((priceHistory.lookup token.address).getD []) with
    | none =>
      simp only [updateCallProfit, h, h2, setActualProfit_caMentioned,
        setActualProfit_timestamp, setActualProfit_setActualProfit]
    | some callIndex =>
      rcases eq_or_ne callIndex (((priceHistory.lookup token.address).getD []).length - 1)
          with h3 | h3 <;>
        rcases eq_or_ne call.sentiment Sentiment.negative with h4 | h4 <;>
          simp [updateCallProfit, h, h2, h3, h4]

end SimulationRunner

/-- C4: the profit back-fill pass is idempotent — running
`calculateActualProfits` again on its own output (same token and
price-history registries) returns the same call log, hence every call's
`actualProfit` is unchanged by the second run. -/
theorem claim_C4_backfill_idempotent (calls : List SimulatedCallData)
    (tokens : List (String × SimulationToken))
    (priceHistory : List (String × List TokenPrice)) :
    SimulationRunner.calculateActualProfits
      (SimulationRunner.calculateActualProfits calls tokens priceHistory) tokens priceHistory =
    SimulationRunner.calculateActualProfits calls tokens priceHistory := by
  unfold SimulationRunner.calculateActualProfits
  rw [List.map_map]
  exact List.map_congr_left fun c _ =>
    SimulationRunner.updateCallProfit_idem tokens priceHistory c

namespace SimulationRunner

/-- A timestamp matching no price point makes the findIndex search fail. -/
theorem findCallIndex_eq_none (ts : ℤ) (l : List TokenPrice)
    (h : ∀ p ∈ l, p.timestamp ≠ ts) : findCallIndex ts l = none := by
  induction l with
  | nil => rfl
  | cons p rest ih =>
    simp only [findCallIndex, if_neg (h p (List.mem_cons_self p rest)),
      ih fun q hq => h q (List.mem_cons_of_mem p hq), Option.map_none']

/-- When the timestamps are pairwise distinct and the final price point
matches, the findIndex search returns the final index. -/
theorem findCallIndex_last (ts : ℤ) (init : List TokenPrice) (pt : TokenPrice)
    (hnd : ((init ++ [pt]).map (fun p => p.timestamp)).Nodup)
    (hpt : pt.timestamp = ts) :
    findCallIndex ts (init ++ [pt]) = some ((init ++ [pt]).length - 1) := by
  induction init with
  | nil => simp [findCallIndex, hpt]
  | cons p init' ih =>
    simp only [List.cons_append] at hnd ⊢
    rw [List.map_cons, List.nodup_cons] at hnd
    have hts : ts ∈ (init' ++ [pt]).map (fun p => p.timestamp) := by
      rw [← hpt]
      exact List.mem_map_of_mem _ (by simp)
    have hne : p.timestamp ≠ ts := fun he => hnd.1 (he ▸ hts)
    have hlen : 1 ≤ (init' ++ [pt]).length := by simp
    simp only [List.cons_append, findCallIndex, if_neg hne, ih hnd.2, Option.map_some']
    congr 1
    simp only [List.length_cons, List.length_append, List.length_singleton] at *
    omega

end SimulationRunner

/-- C10: for a call whose token is in the registry, a call timestamp that
matches no price point of the token's history, or that matches only its final
price point, makes the back-fill pass set `actualProfit` to exactly 0. -/
theorem claim_C10_degenerate_profit_zero (tokens : List (String × SimulationToken))
    (priceHistory : List (String × List TokenPrice)) (call : SimulatedCallData)
    (token : SimulationToken) (history : List TokenPrice)
    (hlook : tokens.lookup (call.caMentioned.getD "") = some token)
    (hhist : (priceHistory.lookup token.address).getD [] = history)
    (hmatch : (∀ p ∈ history, p.timestamp ≠ call.timestamp) ∨
      (∃ init pt, history = init ++ [pt] ∧ pt.timestamp = call.timestamp ∧
        (history.map (fun p => p.timestamp)).Nodup)) :
    (SimulationRunner.updateCallProfit tokens priceHistory call).simulationMetadata.actualProfit =
      some 0 := by
  rcases hmatch with hnone | ⟨init, pt, hsplit, hts, hnd⟩
  · have hfind := SimulationRunner.findCallIndex_eq_none call.timestamp history hnone
    simp [SimulationRunner.updateCallProfit, hlook, hhist, hfind]
  · have hfind := SimulationRunner.findCallIndex_last call.timestamp init pt
      (hsplit ▸ hnd) hts
    rw [← hsplit] at hfind
    simp [SimulationRunner.updateCallProfit, hlook, hhist, hfind]

namespace SimulationRunner

theorem scanDumpAt_zero (p : ℚ) (rest : List ℚ) (peak : ℚ) :
    scanDumpAt (p :: rest) peak 0 ↔ p < peak * 0.3 := by
  simp [scanDumpAt]

theorem scanDumpAt_succ (p : ℚ) (rest : List ℚ) (peak : ℚ) (k : ℕ) :
    scanDumpAt (p :: rest) peak (k + 1) ↔ scanDumpAt rest (max peak p) k := by
  simp [scanDumpAt, List.take_succ_cons]

theorem forall_lt_succ_iff {n : ℕ} {P : ℕ → Prop} :
    (∀ k, k < n + 1 → P k) ↔ P 0 ∧ ∀ k, k < n → P (k + 1) := by
  constructor
  · exact fun h => ⟨h 0 n.succ_pos, fun k hk => h (k + 1) (by omega)⟩
  · rintro ⟨h0, hs⟩ k hk
    cases k with
    | zero => exact h0
    | succ k => exact hs k (by omega)

/-- The dump-detection loop finds nothing exactly when no scanned step
satisfies the dump condition. -/
theorem findDump_eq_none_iff (l : List TokenPrice) (peak : ℚ) (hpeak : 0 < peak) :
    findDump peak l = none ↔
      ∀ k, k < l.length → ¬ scanDumpAt (l.map (fun p => p.price)) peak k := by
  induction l generalizing peak with
  | nil => simp [findDump]
  | cons p rest ih =>
    have h03 : peak * 0.3 < peak := by nlinarith
    simp only [findDump]
    by_cases h1 : p.price > peak
    · rw [if_pos h1, Option.map_eq_none', ih p.price (lt_trans hpeak h1)]
      simp only [List.map_cons, List.length_cons, forall_lt_succ_iff, scanDumpAt_zero,
        scanDumpAt_succ, max_eq_right h1.le]
      exact ⟨fun ha => ⟨not_lt.mpr (lt_trans h03 h1).le, ha⟩, fun h => h.2⟩
    · by_cases h2 : p.price < peak * 0.3
      · rw [if_neg h1, if_pos h2]
        simp only [List.map_cons, List.length_cons, forall_lt_succ_iff, scanDumpAt_zero]
        simp [h2]
      · rw [if_neg h1, if_neg h2, Option.map_eq_none', ih peak hpeak]
        simp only [List.map_cons, List.length_cons, forall_lt_succ_iff, scanDumpAt_zero,
          scanDumpAt_succ, max_eq_left (not_lt.mp h1)]
        simp [h2]

/-- The dump-detection loop returns exactly the first scanned step satisfying
the dump condition. -/
theorem findDump_eq_some_iff (l : List TokenPrice) (peak : ℚ) (hpeak : 0 < peak) (k : ℕ) :
    findDump peak l = some k ↔
      k < l.length ∧ scanDumpAt (l.map (fun p => p.price)) peak k ∧
        ∀ j, j < k → ¬ scanDumpAt (l.map (fun p => p.price)) peak j := by
  induction l generalizing peak k with
  | nil => simp [findDump]
  | cons p rest ih =>
    have h03 : peak * 0.3 < peak := by nlinarith
    simp only [findDump]
    by_cases h1 : p.price > peak
    · rw [if_pos h1]
      have hmax : max peak p.price = p.price := max_eq_right h1.le
      have hnd0 : ¬ p.price < peak * 0.3 := not_lt.mpr (lt_trans h03 h1).le
      cases k with
      | zero =>
        simp only [Option.map_eq_some']
        constructor
        · rintro ⟨a, -, ha⟩; omega
        · rintro ⟨-, hscan, -⟩
          rw [List.map_cons, scanDumpAt_zero] at hscan
          exact absurd hscan hnd0
      | succ k =>
        rw [Option.map_eq_some']
        constructor
        · rintro ⟨a, hfd, ha⟩
          rw [show a = k from by omega] at hfd
          obtain ⟨hlen, hscan, hmin⟩ := (ih p.price (lt_trans hpeak h1) k).mp hfd
          refine ⟨by simpa using Nat.succ_lt_succ hlen, ?_, ?_⟩
          · rw [List.map_cons, scanDumpAt_succ, hmax]; exact hscan
          · intro j hj
            cases j with
            | zero => rw [List.map_cons, scanDumpAt_zero]; exact hnd0
            | succ j => rw [List.map_cons, scanDumpAt_succ, hmax]; exact hmin j (by omega)
        · rintro ⟨hlen, hscan, hmin⟩
          rw [List.map_cons, scanDumpAt_succ, hmax] at hscan
          refine ⟨k, (ih p.price (lt_trans hpeak h1) k).mpr
            ⟨by simpa using hlen, hscan, ?_⟩, rfl⟩
          intro j hj
          have hmj := hmin (j + 1) (by omega)
          rw [List.map_cons, scanDumpAt_succ, hmax] at hmj
          exact hmj
    · by_cases h2 : p.price < peak * 0.3
      · rw [if_neg h1, if_pos h2]
        cases k with
        | zero =>
          constructor
          · intro _
            refine ⟨by simp, ?_, fun j hj => absurd hj (Nat.not_lt_zero j)⟩
            rw [List.map_cons, scanDumpAt_zero]; exact h2
          · intro _; rfl
        | succ k =>
          constructor
          · intro h; exact absurd h (by simp)
          · rintro ⟨-, -, hmin⟩
            have hm0 := hmin 0 k.succ_pos
            rw [List.map_cons, scanDumpAt_zero] at hm0
            exact absurd h2 hm0
      · rw [if_neg h1, if_neg h2]
        have hmax : max peak p.price = peak := max_eq_left (not_lt.mp h1)
        cases k with
        | zero =>
          rw [Option.map_eq_some']
          constructor
          · rintro ⟨a, -, ha⟩; omega
          · rintro ⟨-, hscan, -⟩
            rw [List.map_cons, scanDumpAt_zero] at hscan
            exact absurd hscan h2
        | succ k =>
          rw [Option.map_eq_some']
          constructor
          · rintro ⟨a, hfd, ha⟩
            rw [show a = k from by omega] at hfd
            obtain ⟨hlen, hscan, hmin⟩ := (ih peak hpeak k).mp hfd
            refine ⟨by simpa using Nat.succ_lt_succ hlen, ?_, ?_⟩
            · rw [List.map_cons, scanDumpAt_succ, hmax]; exact hscan
            · intro j hj
              cases j with
              | zero => rw [List.map_cons, scanDumpAt_zero]; exact h2
              | succ j => rw [List.map_cons, scanDumpAt_succ, hmax]; exact hmin j (by omega)
          · rintro ⟨hlen, hscan, hmin⟩
            rw [List.map_cons, scanDumpAt_succ, hmax] at hscan
            refine ⟨k, (ih peak hpeak k).mpr ⟨by simpa using hlen, hscan, ?_⟩, rfl⟩
            intro j hj
            have hmj := hmin (j + 1) (by omega)
            rw [List.map_cons, scanDumpAt_succ, hmax] at hmj
            exact hmj

@[simp]
theorem default_tokenPrice_price : (default : TokenPrice).price = 0 := rfl

theorem getD_map_price (l : List TokenPrice) (i : ℕ) :
    (l.map (fun p => p.price)).getD i 0 = (l.getD i default).price := by
  induction l generalizing i with
  | nil => simp
  | cons p rest ih =>
    cases i with
    | zero => simp
    | succ i => simpa using ih i

theorem getD_drop_add (l : List ℚ) (n k : ℕ) :
    (l.drop n).getD k 0 = l.getD (n + k) 0 := by
  induction l generalizing n with
  | nil => simp
  | cons x rest ih =>
    cases n with
    | zero => simp
    | succ n => simpa [Nat.succ_add] using ih n

theorem drop_eq_getD_cons (l : List ℚ) (n : ℕ) (h : n < l.length) :
    l.drop n = l.getD n 0 :: l.drop (n + 1) := by
  induction l generalizing n with
  | nil => simp at h
  | cons x rest ih =>
    cases n with
    | zero => simp
    | succ n => simpa using ih n (by simpa using h)

theorem map_price_drop (l : List TokenPrice) (n : ℕ) :
    (l.drop n).map (fun p => p.price) = (l.map (fun p => p.price)).drop n := by
  induction l generalizing n with
  | nil => simp
  | cons p rest ih =>
    cases n with
    | zero => simp
    | succ n => simpa using ih n

/-- The history-level dump condition at absolute step `c + 1 + k` is exactly
the scan-level dump condition at offset `k` of the scanned suffix. -/
theorem isDumpStep_iff_scanDumpAt (l : List TokenPrice) (c k : ℕ) (hc : c < l.length) :
    isDumpStep (l.map (fun p => p.price)) c (c + 1 + k) ↔
      scanDumpAt ((l.drop (c + 1)).map (fun p => p.price)) (l.getD c default).price k := by
  unfold isDumpStep runningPeak scanDumpAt
  have hlen : c < (l.map (fun p => p.price)).length := by simpa using hc
  rw [show c + 1 + k - c = k + 1 by omega, drop_eq_getD_cons _ c hlen,
    List.take_succ_cons, List.foldl_cons, max_self, ← getD_drop_add,
    map_price_drop, getD_map_price]

/-- Characterization of the pump-and-dump exit index: the first step after
the call whose price falls below 30% of the running peak, and the call step
itself when no such step exists. -/
theorem pumpDumpExit_spec (l : List TokenPrice) (c : ℕ) (hc : c < l.length)
    (hpos : 0 < (l.getD c default).price) :
    ((∀ i, c < i → i < l.length → ¬ isDumpStep (l.map (fun p => p.price)) c i) →
        (pumpDumpExit l c).1 = c) ∧
    ∀ i, c < i → i < l.length → isDumpStep (l.map (fun p => p.price)) c i →
      (∀ j, c < j → j < i → ¬ isDumpStep (l.map (fun p => p.price)) c j) →
      (pumpDumpExit l c).1 = i := by
  constructor
  · intro hnone
    have hfd : findDump (l.getD c default).price (l.drop (c + 1)) = none := by
      rw [findDump_eq_none_iff _ _ hpos]
      intro k hk
      have hk' : c + 1 + k < l.length := by
        rw [List.length_drop] at hk; omega
      have hni := hnone (c + 1 + k) (by omega) hk'
      rw [isDumpStep_iff_scanDumpAt l c k hc] at hni
      exact hni
    unfold pumpDumpExit
    rw [hfd]
  · intro i hci hil hdump hmin
    have hik : i = c + 1 + (i - c - 1) := by omega
    have hfd : findDump (l.getD c default).price (l.drop (c + 1)) = some (i - c - 1) := by
      rw [findDump_eq_some_iff _ _ hpos]
      refine ⟨by rw [List.length_drop]; omega, ?_, ?_⟩
      · rw [← isDumpStep_iff_scanDumpAt l c _ hc, ← hik]
        exact hdump
      · intro j hj
        rw [← isDumpStep_iff_scanDumpAt l c j hc]
        exact hmin (c + 1 + j) (by omega) (by omega)
    unfold pumpDumpExit
    rw [hfd]
    simp only
    omega

end SimulationRunner

/-- C2 amended: for a positive-sentiment call on a pump-and-dump token whose
call step is found and is not the last price point, the profit is computed
from the pump-dump exit scan, whose exit step is the first step after the
call at which the price falls below 30% of the running peak since the call —
and, when no such step exists, the call step itself (not the last simulated
step). -/
theorem claim_C2_pump_dump_exit_amended (tokens : List (String × SimulationToken))
    (priceHistory : List (String × List TokenPrice)) (call : SimulatedCallData)
    (token : SimulationToken) (history : List TokenPrice) (c : ℕ)
    (hlook : tokens.lookup (call.caMentioned.getD "") = some token)
    (hscen : token.scenario = TokenScenario.PUMP_AND_DUMP)
    (hsent : call.sentiment = Sentiment.positive)
    (hhist : (priceHistory.lookup token.address).getD [] = history)
    (hfind : SimulationRunner.findCallIndex call.timestamp history = some c)
    (hnotlast : c ≠ history.length - 1)
    (hc : c < history.length)
    (hpos : 0 < (history.getD c default).price) :
    (SimulationRunner.updateCallProfit tokens priceHistory call).simulationMetadata.actualProfit =
      some (SimulationRunner.computePositiveProfit TokenScenario.PUMP_AND_DUMP
        call.simulationMetadata.actorArchetype history c) ∧
    SimulationRunner.positiveExit TokenScenario.PUMP_AND_DUMP
        call.simulationMetadata.actorArchetype history c =
      SimulationRunner.pumpDumpExit history c ∧
    ((∀ i, c < i → i < history.length →
        ¬ SimulationRunner.isDumpStep (history.map (fun p => p.price)) c i) →
      (SimulationRunner.pumpDumpExit history c).1 = c) ∧
    ∀ i, c < i → i < history.length →
      SimulationRunner.isDumpStep (history.map (fun p => p.price)) c i →
      (∀ j, c < j → j < i → ¬ SimulationRunner.isDumpStep (history.map (fun p => p.price)) c j) →
      (SimulationRunner.pumpDumpExit history c).1 = i := by
  refine ⟨?_, ?_, (SimulationRunner.pumpDumpExit_spec history c hc hpos).1,
    (SimulationRunner.pumpDumpExit_spec history c hc hpos).2⟩
  · simp [SimulationRunner.updateCallProfit, hlook, hhist, hfind, hnotlast, hsent, hscen]
  · simp [SimulationRunner.positiveExit, SimulationRunner.rugScenarios]

/-- Witness for amended C2: a concrete three-point history with a detected
dump exits at the dump step (step 2). -/
theorem claim_C2_pump_dump_exit_amended_witness :
    (SimulationRunner.pumpDumpExit
      [⟨0, 1, 0, 0, 0⟩, ⟨1, 2, 0, 0, 0⟩, ⟨2, 1/2, 0, 0, 0⟩] 0).1 = 2 :=
  (claim_C2_pump_dump_exit_amended
    [("P", ⟨"P", TokenScenario.PUMP_AND_DUMP⟩)]
    [("P", [⟨0, 1, 0, 0, 0⟩, ⟨1, 2, 0, 0, 0⟩, ⟨2, 1/2, 0, 0, 0⟩])]
    ⟨"u", "u", 0, some "P", Sentiment.positive, ⟨TokenScenario.PUMP_AND_DUMP, "newbie", none⟩⟩
    ⟨"P", TokenScenario.PUMP_AND_DUMP⟩
    [⟨0, 1, 0, 0, 0⟩, ⟨1, 2, 0, 0, 0⟩, ⟨2, 1/2, 0, 0, 0⟩] 0
    rfl rfl rfl rfl
    (by simp [SimulationRunner.findCallIndex])
    (by norm_num) (by norm_num) (by norm_num)).2.2.2 2 (by norm_num) (by norm_num)
    (by norm_num [SimulationRunner.isDumpStep, SimulationRunner.runningPeak,
      List.foldl, max_def])
    (fun j hj1 hj2 => by
      interval_cases j
      norm_num [SimulationRunner.isDumpStep, SimulationRunner.runningPeak,
        List.foldl, max_def])

/-- C2 is false as stated: on a pump-and-dump history with no detected dump
(prices 1, 2, 1 at steps 0, 1, 2 and a positive call at step 0), the code
exits at the call step 0, not at the last simulated step 2; the call's profit
is back-filled from the call step's own price (0% profit). -/
theorem claim_C2_counterexample :
    (SimulationRunner.updateCallProfit
      [("P", ⟨"P", TokenScenario.PUMP_AND_DUMP⟩)]
      [("P", [⟨0, 1, 0, 0, 0⟩, ⟨1, 2, 0, 0, 0⟩, ⟨2, 1, 0, 0, 0⟩])]
      ⟨"u", "u", 0, some "P", Sentiment.positive,
        ⟨TokenScenario.PUMP_AND_DUMP, "newbie", none⟩⟩).simulationMetadata.actualProfit =
      some 0 ∧
    (SimulationRunner.pumpDumpExit
      [⟨0, 1, 0, 0, 0⟩, ⟨1, 2, 0, 0, 0⟩, ⟨2, 1, 0, 0, 0⟩] 0).1 = 0 ∧
    ([⟨0, 1, 0, 0, 0⟩, ⟨1, 2, 0, 0, 0⟩, ⟨2, 1, 0, 0, 0⟩] : List TokenPrice).length - 1 = 2 ∧
    (0 : ℕ) ≠ 2 ∧
    ∀ i, 0 < i → i < 3 →
      ¬ SimulationRunner.isDumpStep
        (([⟨0, 1, 0, 0, 0⟩, ⟨1, 2, 0, 0, 0⟩, ⟨2, 1, 0, 0, 0⟩] : List TokenPrice).map
          (fun p => p.price)) 0 i := by
  refine ⟨?_, ?_, by norm_num, by norm_num, ?_⟩
  · simp [SimulationRunner.updateCallProfit, SimulationRunner.findCallIndex,
      SimulationRunner.computePositiveProfit, SimulationRunner.positiveExit,
      SimulationRunner.rugScenarios, SimulationRunner.pumpDumpExit,
      SimulationRunner.findDump, SimulationRunner.effectiveEntryPrice,
      SimulationRunner.effectiveExitPrice, SimulationRunner.setActualProfit,
      SimulationRunner.holdExitIndex, List.lookup]
    norm_num
  · norm_num [SimulationRunner.pumpDumpExit, SimulationRunner.findDump]
  · intro i h1 h2
    interval_cases i <;>
      norm_num [SimulationRunner.isDumpStep, SimulationRunner.runningPeak,
        List.foldl, max_def]

/-- Witness for C10: a concrete call whose timestamp matches the final of two
price points gets profit exactly 0. -/
theorem claim_C10_degenerate_profit_zero_witness :
    (SimulationRunner.updateCallProfit
      [("T", ⟨"T", TokenScenario.MEDIOCRE⟩)]
      [("T", [⟨0, 1, 0, 0, 0⟩, ⟨1, 2, 0, 0, 0⟩])]
      ⟨"u", "u", 1, some "T", Sentiment.positive,
        ⟨TokenScenario.MEDIOCRE, "newbie", none⟩⟩).simulationMetadata.actualProfit =
      some 0 :=
  claim_C10_degenerate_profit_zero _ _ _ ⟨"T", TokenScenario.MEDIOCRE⟩
    [⟨0, 1, 0, 0, 0⟩, ⟨1, 2, 0, 0, 0⟩] rfl rfl
    (Or.inr ⟨[⟨0, 1, 0, 0, 0⟩], ⟨1, 2, 0, 0, 0⟩, rfl, rfl, by simp⟩)

/-- C7: the accuracy evaluator on the empty score list returns exactly the
fixed worst-case record {mae 100, rmse 100, correlation 0, rankingAccuracy 0}
(the square-root function is never invoked on this path). -/
theorem claim_C7_empty_accuracy (sqrtQ : ℚ → ℚ) :
    TrustScoreOptimizer.evaluateAccuracy sqrtQ [] =
      { mae := 100, rmse := 100, correlation := 0, rankingAccuracy := 0 } := rfl

namespace TrustScoreOptimizer

/-- The code's pair-ordering test decides exactly the specification's pair
condition. -/
theorem pairOrderCorrect_eq (a b : TrustScoreResult) :
    pairOrderCorrect a b = decide (pairMatches a b) := by
  unfold pairOrderCorrect pairMatches
  rw [decide_eq_decide]
  simp only [gt_iff_lt, sub_pos, sub_neg, sub_eq_zero]

theorem correctPairCount_eq (scores : List TrustScoreResult) :
    correctPairCount scores = matchingPairCount scores := by
  induction scores with
  | nil => rfl
  | cons x xs ih =>
    have hf : xs.filter (pairOrderCorrect x) =
        xs.filter fun y => decide (pairMatches x y) :=
      List.filter_congr fun y _ => pairOrderCorrect_eq x y
    simp only [correctPairCount, matchingPairCount, List.tails, List.map_cons, List.sum_cons,
      hf, List.countP_eq_length_filter] at ih ⊢
    omega

theorem totalPairCount_eq_choose (scores : List TrustScoreResult) :
    totalPairCount scores = scores.length.choose 2 := by
  induction scores with
  | nil => rfl
  | cons x xs ih =>
    rw [totalPairCount, ih, List.length_cons, Nat.choose_succ_succ, Nat.choose_one_right]

theorem correctPairCount_le (scores : List TrustScoreResult) :
    correctPairCount scores ≤ totalPairCount scores := by
  induction scores with
  | nil => exact le_refl 0
  | cons x xs ih =>
    exact Nat.add_le_add (List.length_filter_le _ xs) ih

end TrustScoreOptimizer

/-- C8 is false as stated: on two results with matching order, the code's
ranking accuracy is 100 (a percentage) while the fraction of matching
unordered pairs is 1; the two differ. -/
theorem claim_C8_counterexample :
    TrustScoreOptimizer.calculateRankingAccuracy
      [⟨"a", "a", 2, 2, 0, ⟨0, 0, 0, 0, 0, 0, 0, 0⟩⟩,
        ⟨"b", "b", 1, 1, 0, ⟨0, 0, 0, 0, 0, 0, 0, 0⟩⟩] = 100 ∧
    TrustScoreOptimizer.matchingPairFraction
      [⟨"a", "a", 2, 2, 0, ⟨0, 0, 0, 0, 0, 0, 0, 0⟩⟩,
        ⟨"b", "b", 1, 1, 0, ⟨0, 0, 0, 0, 0, 0, 0, 0⟩⟩] = 1 ∧
    TrustScoreOptimizer.calculateRankingAccuracy
      [⟨"a", "a", 2, 2, 0, ⟨0, 0, 0, 0, 0, 0, 0, 0⟩⟩,
        ⟨"b", "b", 1, 1, 0, ⟨0, 0, 0, 0, 0, 0, 0, 0⟩⟩] ≠
    TrustScoreOptimizer.matchingPairFraction
      [⟨"a", "a", 2, 2, 0, ⟨0, 0, 0, 0, 0, 0, 0, 0⟩⟩,
        ⟨"b", "b", 1, 1, 0, ⟨0, 0, 0, 0, 0, 0, 0, 0⟩⟩] := by
  have h1 : TrustScoreOptimizer.calculateRankingAccuracy
      [⟨"a", "a", 2, 2, 0, ⟨0, 0, 0, 0, 0, 0, 0, 0⟩⟩,
        ⟨"b", "b", 1, 1, 0, ⟨0, 0, 0, 0, 0, 0, 0, 0⟩⟩] = 100 := by
    simp only [TrustScoreOptimizer.calculateRankingAccuracy,
      TrustScoreOptimizer.correctPairCount, TrustScoreOptimizer.totalPairCount,
      TrustScoreOptimizer.pairOrderCorrect, List.filter, List.length_cons, List.length_nil]
    norm_num
  have h2 : TrustScoreOptimizer.matchingPairFraction
      [⟨"a", "a", 2, 2, 0, ⟨0, 0, 0, 0, 0, 0, 0, 0⟩⟩,
        ⟨"b", "b", 1, 1, 0, ⟨0, 0, 0, 0, 0, 0, 0, 0⟩⟩] = 1 := by
    simp only [TrustScoreOptimizer.matchingPairFraction,
      TrustScoreOptimizer.matchingPairCount, TrustScoreOptimizer.pairMatches,
      List.tails, List.map_cons, List.sum_cons, List.countP, List.countP.go,
      List.length_cons, List.length_nil]
    norm_num
  exact ⟨h1, h2, by rw [h1, h2]; norm_num⟩

/-- C8 amended: for every non-empty score list, the code's ranking accuracy
equals 100 times the fraction of matching unordered pairs, and lies in
[0, 100] (a percentage, not a value in [0,1]). -/
theorem claim_C8_ranking_accuracy_amended (scores : List TrustScoreResult)
    (hne : scores ≠ []) :
    TrustScoreOptimizer.calculateRankingAccuracy scores =
      100 * TrustScoreOptimizer.matchingPairFraction scores ∧
    0 ≤ TrustScoreOptimizer.calculateRankingAccuracy scores ∧
    TrustScoreOptimizer.calculateRankingAccuracy scores ≤ 100 := by
  unfold TrustScoreOptimizer.calculateRankingAccuracy TrustScoreOptimizer.matchingPairFraction
  rw [← TrustScoreOptimizer.correctPairCount_eq, ← TrustScoreOptimizer.totalPairCount_eq_choose]
  rcases Nat.eq_zero_or_pos (TrustScoreOptimizer.totalPairCount scores) with h0 | hpos
  · rw [h0]
    simp
  · rw [if_pos hpos]
    have hc := TrustScoreOptimizer.correctPairCount_le scores
    have htQ : (0 : ℚ) < (TrustScoreOptimizer.totalPairCount scores : ℚ) := by
      exact_mod_cast hpos
    have hratio : (TrustScoreOptimizer.correctPairCount scores : ℚ) /
        (TrustScoreOptimizer.totalPairCount scores : ℚ) ≤ 1 := by
      rw [div_le_one htQ]; exact_mod_cast hc
    have hnn : (0 : ℚ) ≤ (TrustScoreOptimizer.correctPairCount scores : ℚ) /
        (TrustScoreOptimizer.totalPairCount scores : ℚ) :=
      div_nonneg (by positivity) htQ.le
    exact ⟨by ring, by linarith, by linarith⟩

/-- Witness for amended C8 at a concrete two-element list. -/
theorem claim_C8_ranking_accuracy_amended_witness :
    TrustScoreOptimizer.calculateRankingAccuracy
      [⟨"a", "a", 2, 2, 0, ⟨0, 0, 0, 0, 0, 0, 0, 0⟩⟩,
        ⟨"b", "b", 1, 1, 0, ⟨0, 0, 0, 0, 0, 0, 0, 0⟩⟩] =
      100 * TrustScoreOptimizer.matchingPairFraction
        [⟨"a", "a", 2, 2, 0, ⟨0, 0, 0, 0, 0, 0, 0, 0⟩⟩,
          ⟨"b", "b", 1, 1, 0, ⟨0, 0, 0, 0, 0, 0, 0, 0⟩⟩] ∧
    0 ≤ TrustScoreOptimizer.calculateRankingAccuracy
      [⟨"a", "a", 2, 2, 0, ⟨0, 0, 0, 0, 0, 0, 0, 0⟩⟩,
        ⟨"b", "b", 1, 1, 0, ⟨0, 0, 0, 0, 0, 0, 0, 0⟩⟩] ∧
    TrustScoreOptimizer.calculateRankingAccuracy
      [⟨"a", "a", 2, 2, 0, ⟨0, 0, 0, 0, 0, 0, 0, 0⟩⟩,
        ⟨"b", "b", 1, 1, 0, ⟨0, 0, 0, 0, 0, 0, 0, 0⟩⟩] ≤ 100 :=
  claim_C8_ranking_accuracy_amended _ (by simp)

namespace TrustScoreOptimizer

@[simp]
theorem getParam_setParam_same (p : TrustScoreParameters) (key : ParameterKey) (v : ℚ) :
    getParam (setParam p key v) key = v := by
  cases key <;> rfl

theorem getParam_setParam_ne (p : TrustScoreParameters) (key key' : ParameterKey) (v : ℚ)
    (h : key ≠ key') :
    getParam (setParam p key' v) key = getParam p key := by
  cases key <;> cases key' <;> first | rfl | exact absurd rfl h

/-- Every enumerated candidate takes each listed parameter from its supplied
range and keeps every unlisted parameter at its base value. -/
theorem generateParameterCombinations_mem (ranges : List (ParameterKey × List ℚ))
    (base p : TrustScoreParameters)
    (hnd : (ranges.map Prod.fst).Nodup)
    (hp : p ∈ generateParameterCombinations ranges base) :
    (∀ kv ∈ ranges, getParam p kv.1 ∈ kv.2) ∧
    ∀ key, key ∉ ranges.map Prod.fst → getParam p key = getParam base key := by
  induction ranges generalizing base with
  | nil =>
    simp only [generateParameterCombinations, List.mem_singleton] at hp
    subst hp
    exact ⟨by simp, fun key _ => rfl⟩
  | cons kv rest ih =>
    obtain ⟨key, values⟩ := kv
    rw [List.map_cons, List.nodup_cons] at hnd
    simp only [generateParameterCombinations, List.mem_flatMap] at hp
    obtain ⟨v, hv, hpv⟩ := hp
    obtain ⟨ih1, ih2⟩ := ih (setParam base key v) hnd.2 hpv
    constructor
    · intro kv' hkv'
      rcases List.mem_cons.mp hkv' with rfl | hkv'
      · have hkey : getParam p key = v := by
          rw [ih2 key hnd.1, getParam_setParam_same]
        simpa [hkey] using hv
      · exact ih1 kv' hkv'
    · intro key' hkey'
      simp only [List.map_cons, List.mem_cons, not_or] at hkey'
      rw [ih2 key' hkey'.2, getParam_setParam_ne base key' key v hkey'.1]

/-- The enumeration has exactly one candidate per element of the Cartesian
product of the supplied ranges. -/
theorem generateParameterCombinations_length (ranges : List (ParameterKey × List ℚ)) :
    ∀ base, (generateParameterCombinations ranges base).length =
      (ranges.map fun kv => kv.2.length).prod := by
  induction ranges with
  | nil => intro base; rfl
  | cons kv rest ih =>
    obtain ⟨key, values⟩ := kv
    intro base
    induction values with
    | nil => simp [generateParameterCombinations]
    | cons v vs ihv =>
      simp only [generateParameterCombinations, List.flatMap_cons, List.length_append,
        List.map_cons, List.prod_cons, List.length_cons] at ihv ⊢
      rw [ih (setParam base key v), ihv]
      ring

theorem generateParameterCombinations_ne_nil (ranges : List (ParameterKey × List ℚ))
    (base : TrustScoreParameters) (hne : ∀ kv ∈ ranges, kv.2 ≠ []) :
    generateParameterCombinations ranges base ≠ [] := by
  have hlen := generateParameterCombinations_length ranges base
  intro hcontra
  rw [hcontra] at hlen
  have hpos : 0 < (ranges.map fun kv => kv.2.length).prod := by
    apply List.prod_pos
    intro a ha
    obtain ⟨kv, hkv, rfl⟩ := List.mem_map.mp ha
    exact List.length_pos.mpr (hne kv hkv)
  simp only [List.length_nil] at hlen
  omega

theorem foldl_best_mem (maeOf : TrustScoreParameters → ℚ)
    (l : List TrustScoreParameters) (acc : TrustScoreParameters × Option ℚ) :
    (l.foldl
      (fun best p => if betterThan (maeOf p) best.2 then (p, some (maeOf p)) else best)
      acc).1 = acc.1 ∨
    (l.foldl
      (fun best p => if betterThan (maeOf p) best.2 then (p, some (maeOf p)) else best)
      acc).1 ∈ l := by
  induction l generalizing acc with
  | nil => exact Or.inl rfl
  | cons x xs ih =>
    rw [List.foldl_cons]
    by_cases hb : betterThan (maeOf x) acc.2
    · rw [if_pos hb]
      rcases ih (x, some (maeOf x)) with h | h
      · exact Or.inr (by rw [h]; exact List.mem_cons_self x xs)
      · exact Or.inr (List.mem_cons_of_mem x h)
    · rw [if_neg hb]
      rcases ih acc with h | h
      · exact Or.inl h
      · exact Or.inr (List.mem_cons_of_mem x h)

/-- With a non-empty candidate list the grid search always returns one of the
candidates (the first strictly beats the `Infinity` initial best score). -/
theorem selectBestParams_mem (maeOf : TrustScoreParameters → ℚ)
    (combos : List TrustScoreParameters) (current : TrustScoreParameters)
    (hne : combos ≠ []) :
    selectBestParams maeOf combos current ∈ combos := by
  obtain ⟨c, cs, rfl⟩ := List.exists_cons_of_ne_nil hne
  unfold selectBestParams
  rw [List.foldl_cons, if_pos (show betterThan (maeOf c) (none : Option ℚ) from rfl)]
  rcases foldl_best_mem maeOf cs (c, some (maeOf c)) with h | h
  · exact h ▸ List.mem_cons_self c cs
  · exact List.mem_cons_of_mem c h

end TrustScoreOptimizer

/-- C5: with a non-empty candidate list per listed parameter (and distinct
listed keys), the grid search returns parameters whose value for each listed
parameter comes from that parameter's candidates, whose value for every
unlisted parameter equals its pre-search current value, and the enumerated
candidates number exactly the size of the Cartesian product of the supplied
ranges. -/
theorem claim_C5_grid_search_containment (sqrtQ : ℚ → ℚ)
    (simulationData : SimulationResult) (ranges : List (ParameterKey × List ℚ))
    (current : TrustScoreParameters)
    (hne : ∀ kv ∈ ranges, kv.2 ≠ [])
    (hnd : (ranges.map Prod.fst).Nodup) :
    (∀ kv ∈ ranges,
      getParam
        (TrustScoreOptimizer.optimizeParameters sqrtQ simulationData ranges current) kv.1
        ∈ kv.2) ∧
    (∀ key, key ∉ ranges.map Prod.fst →
      getParam
        (TrustScoreOptimizer.optimizeParameters sqrtQ simulationData ranges current) key =
      getParam current key) ∧
    (TrustScoreOptimizer.generateParameterCombinations ranges current).length =
      (ranges.map fun kv => kv.2.length).prod := by
  have hmem : TrustScoreOptimizer.optimizeParameters sqrtQ simulationData ranges current ∈
      TrustScoreOptimizer.generateParameterCombinations ranges current :=
    TrustScoreOptimizer.selectBestParams_mem _ _ _
      (TrustScoreOptimizer.generateParameterCombinations_ne_nil ranges current hne)
  obtain ⟨h1, h2⟩ :=
    TrustScoreOptimizer.generateParameterCombinations_mem ranges current _ hnd hmem
  exact ⟨h1, h2, TrustScoreOptimizer.generateParameterCombinations_length ranges current⟩

/-- Witness for C5: with the range {profitWeight: [0.2, 0.25, 0.3]} over an
empty simulation, the returned profitWeight is one of the three candidates,
an unlisted parameter keeps its pre-search value, and three candidates are
enumerated. -/
theorem claim_C5_grid_search_containment_witness :
    getParam
      (TrustScoreOptimizer.optimizeParameters id ⟨[], [], [], []⟩
        [(ParameterKey.profitWeight, [0.2, 0.25, 0.3])]
        TrustScoreOptimizer.defaultParameters) ParameterKey.profitWeight
      ∈ [(0.2 : ℚ), 0.25, 0.3] ∧
    getParam
      (TrustScoreOptimizer.optimizeParameters id ⟨[], [], [], []⟩
        [(ParameterKey.profitWeight, [0.2, 0.25, 0.3])]
        TrustScoreOptimizer.defaultParameters) ParameterKey.volumeWeight =
      getParam TrustScoreOptimizer.defaultParameters
        ParameterKey.volumeWeight ∧
    (TrustScoreOptimizer.generateParameterCombinations
      [(ParameterKey.profitWeight, [0.2, 0.25, 0.3])]
      TrustScoreOptimizer.defaultParameters).length = 3 := by
  have H := claim_C5_grid_search_containment id ⟨[], [], [], []⟩
    [(ParameterKey.profitWeight, [0.2, 0.25, 0.3])] TrustScoreOptimizer.defaultParameters
    (by simp) (by simp)
  refine ⟨?_, H.2.1 ParameterKey.volumeWeight (by simp), ?_⟩
  · simpa using H.1 (ParameterKey.profitWeight, [0.2, 0.25, 0.3]) (by simp)
  · rw [H.2.2]; rfl

namespace TrustScoreOptimizer

@[simp]
theorem eraseVolumePenalty_calculatedScore (r : TrustScoreResult) :
    (eraseVolumePenalty r).calculatedScore = r.calculatedScore := rfl

@[simp]
theorem eraseVolumePenalty_expectedScore (r : TrustScoreResult) :
    (eraseVolumePenalty r).expectedScore = r.expectedScore := rfl

@[simp]
theorem eraseVolumePenalty_difference (r : TrustScoreResult) :
    (eraseVolumePenalty r).difference = r.difference := rfl

@[simp]
theorem eraseVolumePenalty_userId (r : TrustScoreResult) :
    (eraseVolumePenalty r).userId = r.userId := rfl

/-- A scored loop entry is, up to its `volumePenalty` metrics field,
independent of the installed optimizer parameters. -/
theorem scoreEntry_param_indep (sqrtQ : ℚ → ℚ) (p1 p2 : TrustScoreParameters)
    (d : SimulationResult) (e : String × ActorPerformance) :
    (scoreEntry sqrtQ p1 d e).map eraseVolumePenalty =
      (scoreEntry sqrtQ p2 d e).map eraseVolumePenalty := by
  cases hcalls : d.calls.filter (fun call => call.userId == e.1) with
  | nil => simp only [scoreEntry, hcalls]
  | cons c0 rest =>
    simp only [scoreEntry, hcalls, Option.map_some']
    rfl

theorem insertByScore_map_erase (x : TrustScoreResult) (l : List TrustScoreResult) :
    (insertByScore x l).map eraseVolumePenalty =
      insertByScore (eraseVolumePenalty x) (l.map eraseVolumePenalty) := by
  induction l with
  | nil => rfl
  | cons y ys ih =>
    simp only [insertByScore, List.map_cons, eraseVolumePenalty_calculatedScore]
    by_cases h : y.calculatedScore ≤ x.calculatedScore
    · rw [if_pos h, if_pos h, List.map_cons, List.map_cons]
    · rw [if_neg h, if_neg h, List.map_cons, ih]

theorem sortByScoreDesc_map_erase (l : List TrustScoreResult) :
    (sortByScoreDesc l).map eraseVolumePenalty =
      sortByScoreDesc (l.map eraseVolumePenalty) := by
  induction l with
  | nil => rfl
  | cons x xs ih =>
    simp only [sortByScoreDesc, List.map_cons, insertByScore_map_erase, ih]

theorem filterMap_scoreEntry_indep (sqrtQ : ℚ → ℚ) (p1 p2 : TrustScoreParameters)
    (d : SimulationResult) :
    (d.actorPerformance.filterMap (scoreEntry sqrtQ p1 d)).map eraseVolumePenalty =
      (d.actorPerformance.filterMap (scoreEntry sqrtQ p2 d)).map eraseVolumePenalty := by
  rw [List.map_filterMap, List.map_filterMap]
  exact List.filterMap_congr fun e _ => scoreEntry_param_indep sqrtQ p1 p2 d e

/-- The enhanced score list is, up to each result's `volumePenalty` metrics
field, independent of the installed optimizer parameters. -/
theorem scoresEnhanced_param_indep (sqrtQ : ℚ → ℚ) (p1 p2 : TrustScoreParameters)
    (d : SimulationResult) :
    (calculateTrustScoresEnhanced sqrtQ p1 d).map eraseVolumePenalty =
      (calculateTrustScoresEnhanced sqrtQ p2 d).map eraseVolumePenalty := by
  unfold calculateTrustScoresEnhanced
  rw [sortByScoreDesc_map_erase, sortByScoreDesc_map_erase,
    filterMap_scoreEntry_indep sqrtQ p1 p2 d]

/-- Every installed candidate produces the same MAE. -/
theorem evaluateAccuracy_mae_indep (sqrtQ : ℚ → ℚ) (p1 p2 : TrustScoreParameters)
    (d : SimulationResult) :
    (evaluateAccuracy sqrtQ (calculateTrustScoresEnhanced sqrtQ p1 d)).mae =
      (evaluateAccuracy sqrtQ (calculateTrustScoresEnhanced sqrtQ p2 d)).mae := by
  have hmap := scoresEnhanced_param_indep sqrtQ p1 p2 d
  set l1 := calculateTrustScoresEnhanced sqrtQ p1 d with hl1
  set l2 := calculateTrustScoresEnhanced sqrtQ p2 d with hl2
  have hdiff : l1.map (fun s => s.difference) = l2.map (fun s => s.difference) := by
    have e1 : l1.map (fun s => s.difference) =
        (l1.map eraseVolumePenalty).map (fun s => s.difference) := by
      rw [List.map_map]
      exact List.map_congr_left fun s _ => rfl
    have e2 : l2.map (fun s => s.difference) =
        (l2.map eraseVolumePenalty).map (fun s => s.difference) := by
      rw [List.map_map]
      exact List.map_congr_left fun s _ => rfl
    rw [e1, e2, hmap]
  have hlen : l1.length = l2.length := by
    have h := congrArg List.length hmap
    simpa using h
  unfold evaluateAccuracy
  by_cases h0 : l1.length = 0
  · rw [if_pos h0, if_pos (hlen ▸ h0)]
  · rw [if_neg h0, if_neg (hlen ▸ h0)]
    dsimp only
    rw [hdiff, hlen]

theorem foldl_best_const (maeOf : TrustScoreParameters → ℚ) (m : ℚ)
    (hm : ∀ p, maeOf p = m) (l : List TrustScoreParameters) (b : TrustScoreParameters) :
    (l.foldl
      (fun best p => if betterThan (maeOf p) best.2 then (p, some (maeOf p)) else best)
      (b, some m)).1 = b := by
  induction l with
  | nil => rfl
  | cons x xs ih =>
    rw [List.foldl_cons,
      if_neg (by simp [betterThan, hm x] : ¬ betterThan (maeOf x) (b, some m).2 = true)]
    exact ih

/-- When all candidates score the same MAE, the strictly-smaller best-update
fires only once, on the first candidate, so the grid search returns the first
combination in enumeration order. -/
theorem selectBestParams_const_head (maeOf : TrustScoreParameters → ℚ) (m : ℚ)
    (hm : ∀ p, maeOf p = m) (combos : List TrustScoreParameters)
    (c : TrustScoreParameters) (hhead : combos.head? = some c)
    (current : TrustScoreParameters) :
    selectBestParams maeOf combos current = c := by
  cases combos with
  | nil => simp at hhead
  | cons a tl =>
    rw [List.head?_cons, Option.some_inj] at hhead
    rw [← hhead]
    unfold selectBestParams
    rw [List.foldl_cons, if_pos (show betterThan (maeOf a) (none : Option ℚ) from rfl),
      show maeOf a = m from hm a]
    exact foldl_best_const maeOf m hm tl a

end TrustScoreOptimizer

/-- C6: the installed candidate parameters do not influence the computed
scores — for any two parameter records, `calculateTrustScoresEnhanced` on the
same simulation result yields the same userId, calculatedScore, expectedScore
and difference for every actor (the full results agree once the unused
`metrics.volumePenalty` field, the only value read from the installed
parameters, is erased), every candidate therefore yields the same MAE, and —
since only a strictly smaller MAE replaces the best — `optimizeParameters`
returns the first combination in enumeration order of the Cartesian
product. -/
theorem claim_C6_parameters_no_influence (sqrtQ : ℚ → ℚ) (d : SimulationResult)
    (p1 p2 : TrustScoreParameters) (ranges : List (ParameterKey × List ℚ))
    (current firstCombo : TrustScoreParameters)
    (hhead : (TrustScoreOptimizer.generateParameterCombinations ranges current).head? =
      some firstCombo) :
    (TrustScoreOptimizer.calculateTrustScoresEnhanced sqrtQ p1 d).map
        (fun r => (r.userId, r.calculatedScore, r.expectedScore, r.difference)) =
      (TrustScoreOptimizer.calculateTrustScoresEnhanced sqrtQ p2 d).map
        (fun r => (r.userId, r.calculatedScore, r.expectedScore, r.difference)) ∧
    (TrustScoreOptimizer.calculateTrustScoresEnhanced sqrtQ p1 d).map
        TrustScoreOptimizer.eraseVolumePenalty =
      (TrustScoreOptimizer.calculateTrustScoresEnhanced sqrtQ p2 d).map
        TrustScoreOptimizer.eraseVolumePenalty ∧
    (TrustScoreOptimizer.evaluateAccuracy sqrtQ
        (TrustScoreOptimizer.calculateTrustScoresEnhanced sqrtQ p1 d)).mae =
      (TrustScoreOptimizer.evaluateAccuracy sqrtQ
        (TrustScoreOptimizer.calculateTrustScoresEnhanced sqrtQ p2 d)).mae ∧
    TrustScoreOptimizer.optimizeParameters sqrtQ d ranges current = firstCombo := by
  have hmap := TrustScoreOptimizer.scoresEnhanced_param_indep sqrtQ p1 p2 d
  refine ⟨?_, hmap, TrustScoreOptimizer.evaluateAccuracy_mae_indep sqrtQ p1 p2 d, ?_⟩
  · have e1 : (TrustScoreOptimizer.calculateTrustScoresEnhanced sqrtQ p1 d).map
        (fun r => (r.userId, r.calculatedScore, r.expectedScore, r.difference)) =
        ((TrustScoreOptimizer.calculateTrustScoresEnhanced sqrtQ p1 d).map
          TrustScoreOptimizer.eraseVolumePenalty).map
          (fun r => (r.userId, r.calculatedScore, r.expectedScore, r.difference)) := by
      rw [List.map_map]
      exact List.map_congr_left fun s _ => rfl
    have e2 : (TrustScoreOptimizer.calculateTrustScoresEnhanced sqrtQ p2 d).map
        (fun r => (r.userId, r.calculatedScore, r.expectedScore, r.difference)) =
        ((TrustScoreOptimizer.calculateTrustScoresEnhanced sqrtQ p2 d).map
          TrustScoreOptimizer.eraseVolumePenalty).map
          (fun r => (r.userId, r.calculatedScore, r.expectedScore, r.difference)) := by
      rw [List.map_map]
      exact List.map_congr_left fun s _ => rfl
    rw [e1, e2, hmap]
  · unfold TrustScoreOptimizer.optimizeParameters
    exact TrustScoreOptimizer.selectBestParams_const_head _
      ((TrustScoreOptimizer.evaluateAccuracy sqrtQ
        (TrustScoreOptimizer.calculateTrustScoresEnhanced sqrtQ current d)).mae)
      (fun p => TrustScoreOptimizer.evaluateAccuracy_mae_indep sqrtQ p current d)
      _ firstCombo hhead current

/-- Witness for C6: over an empty simulation with a single-candidate range,
the grid search returns exactly the first (only) combination, and the
parameter-independence conclusions hold at the default parameters. -/
theorem claim_C6_parameters_no_influence_witness :
    TrustScoreOptimizer.optimizeParameters id ⟨[], [], [], []⟩
      [(ParameterKey.profitWeight, [0.2])] TrustScoreOptimizer.defaultParameters =
      setParam TrustScoreOptimizer.defaultParameters ParameterKey.profitWeight 0.2 :=
  (claim_C6_parameters_no_influence id ⟨[], [], [], []⟩
    TrustScoreOptimizer.defaultParameters TrustScoreOptimizer.defaultParameters
    [(ParameterKey.profitWeight, [0.2])] TrustScoreOptimizer.defaultParameters
    (setParam TrustScoreOptimizer.defaultParameters ParameterKey.profitWeight 0.2)
    rfl).2.2.2
